import Mathlib

/-!
Verification development for the invoice screening engine of
`src/duplicationValidator.py`.

The Python source is shallowly embedded below.  Numbers that the source
handles as IEEE floats are modelled as exact rationals (`ℚ`); the
comparisons the engine performs (`>= 95`, `<= 0.05`, ...) are then exact
rational comparisons.  SHA-256 (`hashlib.sha256(...).hexdigest()`) is
modelled as the identity on its pre-image string: the digest is
deterministic and collision-free on every input we reason about, so
fingerprint equality is modelled as equality of the concatenated
pre-hash inputs.  The cosine line-item scorer
(`lineitem_similarity`, CountVectorizer + cosine_similarity) produces
irrational values under exact semantics, so the screening pipeline is
parameterised by the scorer; concrete instantiations used in witnesses
agree with the source scorer on the inputs they are applied to.
-/

/-! ## Normalizer (`normalize_text`, src/duplicationValidator.py lines 15-21) -/

/-- Characters removed by `re.sub(r"[\s\-\_\,\.\x27\/\\]+", "", s)`:
whitespace, hyphen, underscore, comma, dot, apostrophe, slash, backslash. -/
def isStrippedChar (c : Char) : Bool :=
  c = ' ' || c = '\t' || c = '\n' || c = '\r' || c = '\x0b' || c = '\x0c' ||
  c = '-' || c = '_' || c = ',' || c = '.' || c = '\x27' || c = '/' || c = '\\'

/-- `normalize_text`: lower-case then delete the separator characters.
After the deletion no whitespace remains, so the trailing `.strip()` of the
source is a no-op and is not modelled separately. -/
def normalize_text (s : String) : String :=
  String.mk ((s.toList.map Char.toLower).filter (fun c => !isStrippedChar c))

/-! ## Date parsing (`parse_date`, lines 23-36) -/

/-- A parsed calendar date (what `datetime.strptime` returns, date part). -/
structure DateT where
  year : Nat
  month : Nat
  day : Nat
deriving DecidableEq, Repr

def isLeapYear (y : Nat) : Bool :=
  (y % 4 = 0 && y % 100 ≠ 0) || y % 400 = 0

def daysInMonth (y m : Nat) : Nat :=
  if m = 2 then (if isLeapYear y then 29 else 28)
  else if m = 4 || m = 6 || m = 9 || m = 11 then 30
  else 31

/-- Days since 0000-03-01 (standard civil-from-days scheme), as used for
exact day-difference arithmetic between two dates.  Valid for year ≥ 1. -/
def dateOrdinal (d : DateT) : Int :=
  let y : Int := if d.month ≤ 2 then (d.year : Int) - 1 else (d.year : Int)
  let era : Int := y / 400
  let yoe : Int := y - era * 400
  let mp : Int := if d.month > 2 then (d.month : Int) - 3 else (d.month : Int) + 9
  let doy : Int := (153 * mp + 2) / 5 + (d.day : Int) - 1
  let doe : Int := yoe * 365 + yoe / 4 - yoe / 100 + doy
  era * 146097 + doe

def allDigits (l : List Char) : Bool := l.all Char.isDigit

def digitsToNat (l : List Char) : Nat :=
  l.foldl (fun acc c => acc * 10 + (c.toNat - 48)) 0

/-- Parse a day/month component as `strptime` `%d`/`%m` do: one or two
digits (the range check against the calendar is done by the caller). -/
def parseComp2 (s : String) : Option Nat :=
  let l := s.toList
  if (l.length = 1 || l.length = 2) && allDigits l then some (digitsToNat l) else none

/-- Parse a year component as `strptime` `%Y` does: exactly four digits. -/
def parseComp4 (s : String) : Option Nat :=
  let l := s.toList
  if l.length = 4 && allDigits l then some (digitsToNat l) else none

/-- Validate and build the date, mirroring `datetime(year, month, day)`:
month in 1..12, day in 1..days-of-month, year ≥ 1 (MINYEAR). -/
def mkDate (y m d : Nat) : Option DateT :=
  if 1 ≤ y && 1 ≤ m && m ≤ 12 && 1 ≤ d && d ≤ daysInMonth y m then
    some ⟨y, m, d⟩
  else none

/-- Split a character list at every occurrence of `sep` (the behaviour of
`str.split` / `String.splitOn` for a one-character separator, which is the
only kind the date formats use). -/
def splitOnChar (sep : Char) : List Char → List Char → List (List Char)
  | acc, [] => [acc.reverse]
  | acc, c :: rest =>
    if c = sep then acc.reverse :: splitOnChar sep [] rest
    else splitOnChar sep (c :: acc) rest

/-- One `strptime` attempt with format day-month-year on separator `sep`. -/
def parseDMY (sep : Char) (s : String) : Option DateT :=
  match splitOnChar sep [] s.toList with
  | [ds, ms, ys] =>
    match parseComp2 (String.mk ds), parseComp2 (String.mk ms),
      parseComp4 (String.mk ys) with
    | some d, some m, some y => mkDate y m d
    | _, _, _ => none
  | _ => none

/-- One `strptime` attempt with format year-month-day on separator `-`. -/
def parseYMD (s : String) : Option DateT :=
  match splitOnChar '-' [] s.toList with
  | [ys, ms, ds] =>
    match parseComp4 (String.mk ys), parseComp2 (String.mk ms),
      parseComp2 (String.mk ds) with
    | some y, some m, some d => mkDate y m d
    | _, _, _ => none
  | _ => none

/-- `parse_date`: the ordered format list
`["%d-%m-%Y", "%d/%m/%Y", "%Y-%m-%d", "%d.%m.%Y"]` followed by the ISO
fallback.  `datetime.fromisoformat` on date-only strings is the strict
`YYYY-MM-DD` shape, which the third format already accepts, so the
fallback is modelled by that same parse. -/
def parse_date (s : String) : Option DateT :=
  (parseDMY '-' s) <|> (parseDMY '/' s) <|> (parseYMD s) <|>
  (parseDMY '.' s) <|> (parseYMD s)

/-- `date_diff_days`: absolute day difference; `none` models the `np.nan`
returned when either side fails to parse. -/
def date_diff_days (d1 d2 : String) : Option Nat :=
  match parse_date d1, parse_date d2 with
  | some a, some b => some (dateOrdinal a - dateOrdinal b).natAbs
  | _, _ => none

/-! ## `difflib.SequenceMatcher` (`text_similarity`, lines 38-40)

`SequenceMatcher(None, a, b).ratio()` is `2*M/T` where `M` is the total
size of the matching blocks found by the Ratcliff/Obershelp recursion and
`T = len(a) + len(b)`.  With `isjunk = None` and strings shorter than 200
characters (no autojunk), `find_longest_match` returns, among the maximal
matching blocks, the one starting earliest in `a` and then earliest in
`b`.  The recursion below is fuelled by `len a + len b`, which always
suffices because each recursive call strictly shrinks the total length. -/

/-- Length of the longest common leading run of two character lists. -/
def commonLead : List Char → List Char → Nat
  | a :: as, b :: bs => if a = b then commonLead as bs + 1 else 0
  | _, _ => 0

/-- Length of the matching run of `a` and `b` starting at offsets `i`, `j`. -/
def extLen (a b : List Char) (i j : Nat) : Nat :=
  commonLead (a.drop i) (b.drop j)

/-- Keep the incumbent unless the candidate's match length is strictly
larger: folding in `(i, j)` order therefore selects, among the maximal
blocks, the one with least `i`, then least `j` — exactly
`find_longest_match`'s choice. -/
def pickLonger (cur cand : Nat × Nat × Nat) : Nat × Nat × Nat :=
  if cand.2.2 > cur.2.2 then cand else cur

/-- All `(i, j, extLen a b i j)` candidates in scan order. -/
def matchCands (a b : List Char) : List (Nat × Nat × Nat) :=
  (List.range a.length).flatMap fun i =>
    (List.range b.length).map fun j => (i, j, extLen a b i j)

/-- `find_longest_match` over the whole strings. -/
def longestMatch (a b : List Char) : Nat × Nat × Nat :=
  (matchCands a b).foldl pickLonger (0, 0, 0)

/-- Total size of all matching blocks (`sum of get_matching_blocks` sizes),
with structural fuel. -/
def matchSumF : Nat → List Char → List Char → Nat
  | 0, _, _ => 0
  | fuel + 1, a, b =>
    let m := longestMatch a b
    let i := m.1; let j := m.2.1; let k := m.2.2
    if k = 0 then 0
    else
      k + matchSumF fuel (a.take i) (b.take j) +
        matchSumF fuel (a.drop (i + k)) (b.drop (j + k))

/-- Total matched characters between `a` and `b`.  The fuel
`a.length + b.length` always suffices: every recursive call strictly
decreases the combined length of the two pieces. -/
def matchSum (a b : List Char) : Nat :=
  matchSumF (a.length + b.length) a b

/-- `SequenceMatcher.ratio()` scaled to an exact rational in `[0, 1]`
(`difflib` returns `1.0` for two empty sequences). -/
def ratioQ (a b : List Char) : ℚ :=
  if a.length + b.length = 0 then 1
  else 2 * (matchSum a b : ℚ) / ((a.length : ℚ) + (b.length : ℚ))

/-- `text_similarity`: fuzzy similarity of the normalized strings, 0..100. -/
def text_similarity (a b : String) : ℚ :=
  ratioQ (normalize_text a).toList (normalize_text b).toList * 100

/-! ## Rounding and numeric formatting

`round(x, n)` in Python rounds to `n` decimals with ties to even; the
`:,.2f` / `:.1f` format specifiers round the same way and the first also
groups the integer part with commas. -/

/-- Round to the nearest integer, ties to even. -/
def roundHalfEven (q : ℚ) : ℤ :=
  let f := ⌊q⌋
  let r := q - (f : ℚ)
  if r < 1/2 then f
  else if 1/2 < r then f + 1
  else if f % 2 = 0 then f else f + 1

/-- `round(q, k)`: round to `k` decimal places, ties to even. -/
def roundTo (k : ℕ) (q : ℚ) : ℚ :=
  (roundHalfEven (q * 10 ^ k) : ℚ) / 10 ^ k

/-- Zero-pad a natural number to two digits. -/
def pad2 (n : ℕ) : String :=
  if n < 10 then "0" ++ toString n else toString n

/-- Zero-pad a natural number to four digits (`strftime` `%Y`). -/
def pad4 (n : ℕ) : String :=
  if n < 10 then "000" ++ toString n
  else if n < 100 then "00" ++ toString n
  else if n < 1000 then "0" ++ toString n
  else toString n

/-- Split into chunks of three (fuelled). -/
def chunk3 : ℕ → List Char → List (List Char)
  | 0, _ => []
  | _, [] => []
  | fuel + 1, xs => xs.take 3 :: chunk3 fuel (xs.drop 3)

/-- Group a digit list (most significant first) with commas every three. -/
def groupDigitsAux (l : List Char) : List Char :=
  (((chunk3 l.length l.reverse).map List.reverse).reverse.intersperse [',']).flatten

/-- Render a natural number with thousands separators. -/
def groupNat (n : ℕ) : String :=
  String.mk (groupDigitsAux (toString n).toList)

/-- Python `f"{x:,.2f}"` for a non-negative amount: two decimals, ties to
even, commas in the integer part (all amounts formatted by the source
reasons are non-negative). -/
def fmtComma2 (q : ℚ) : String :=
  let c := (roundHalfEven (q * 100)).toNat
  groupNat (c / 100) ++ "." ++ pad2 (c % 100)

/-- Python `f"{x:.1f}"` for a non-negative value: one decimal, ties to even. -/
def fmt1 (q : ℚ) : String :=
  let t := (roundHalfEven (q * 10)).toNat
  toString (t / 10) ++ "." ++ toString (t % 10)

/-- `strftime("%Y-%m-%d")`. -/
def strftimeYMD (d : DateT) : String :=
  pad4 d.year ++ "-" ++ pad2 d.month ++ "-" ++ pad2 d.day

/-- Insert into a sorted list, keeping the new element before the first
element it may precede (`le x y` = "x may come before y"). -/
def insertLe {α : Type} (le : α → α → Bool) (x : α) : List α → List α
  | [] => [x]
  | y :: ys => if le x y then x :: y :: ys else y :: insertLe le x ys

/-- Stable insertion sort.  A stable sort is fully determined by the total
preorder it sorts by, so this produces exactly the output of Python's
stable `sorted` (and of pandas' sort on distinct keys). -/
def insSort {α : Type} (le : α → α → Bool) : List α → List α
  | [] => []
  | x :: xs => insertLe le x (insSort le xs)

/-- pandas `Series.median`: sort; middle element for odd length, mean of
the two middle elements for even length. -/
def medianQ (l : List ℚ) : ℚ :=
  let s := insSort (fun a b => decide (a ≤ b)) l
  let n := s.length
  if n = 0 then 0
  else if n % 2 = 1 then s.getD (n / 2) 0
  else (s.getD (n / 2 - 1) 0 + s.getD (n / 2) 0) / 2

/-! ## Data model -/

/-- A line item as the engine reads it: `description`, `hsnSac`
(stringified), `unitPrice` (numeric). -/
structure LineItem where
  description : String
  hsnSac : String
  unitPrice : ℚ
deriving DecidableEq, Repr

/-- An invoice record with the fields `run_historical_checks` reads
(`get_existing_from_row` / the `new_invoice` dict). -/
structure Invoice where
  invoiceNumber : String
  date : String
  vendorName : String
  gstNumber : String
  totalAmountFloat : ℚ
  lineItems : List LineItem
deriving DecidableEq, Repr

/-! ## Exact-match fingerprint (`compute_hash`, lines 52-59) -/

/-- Count how many times `p` divides `n` (fuelled). -/
def factorCount (p : ℕ) : ℕ → ℕ → ℕ
  | 0, _ => 0
  | fuel + 1, n => if p ≤ 1 || n = 0 || n % p ≠ 0 then 0 else factorCount p fuel (n / p) + 1

/-- Number of decimal digits needed to write `q` exactly, when finite. -/
def decDigits (q : ℚ) : Option ℕ :=
  let d := q.den
  let a2 := factorCount 2 d d
  let a5 := factorCount 5 d d
  if d = 2 ^ a2 * 5 ^ a5 then some (max a2 a5) else none

/-- Zero-pad to `k` digits. -/
def padZeros (k : ℕ) (n : ℕ) : String :=
  let s := toString n
  String.mk (List.replicate (k - s.length) '0') ++ s

/-- Model of the Python f-string rendering of a float amount
(`f"{inv.get('totalAmountFloat','')}"`): the shortest exact decimal with
at least one fractional digit, e.g. `100.0`, `0.03`.  This matches
`repr(float)` for every value whose shortest decimal form equals the
stored rational, which holds for all values in this development; values
with no finite decimal form get an inert non-decimal rendering. -/
def totalAmountStr (q : ℚ) : String :=
  match decDigits q with
  | some k =>
    let k' := max k 1
    let n := (q * 10 ^ k').num
    let sign := if n < 0 then "-" else ""
    let m := n.natAbs
    sign ++ toString (m / 10 ^ k') ++ "." ++ padZeros k' (m % 10 ^ k')
  | none => toString q.num ++ "/" ++ toString q.den

/-- `compute_hash`: SHA-256 of the concatenation
`gstNumber ++ invoiceNumber ++ date ++ totalAmountFloat`.  The digest is
modelled by its pre-image (deterministic and, idealising away hash
collisions, injective on it). -/
def compute_hash (inv : Invoice) : String :=
  inv.gstNumber ++ inv.invoiceNumber ++ inv.date ++
    totalAmountStr inv.totalAmountFloat

/-! ## Ghost-invoice heuristic (`detect_ghost_invoice`, lines 212-273) -/

/-- The truthy `hsnSac` codes of a line-item list
(`[i.get("hsnSac", "") for i in its if ... and i.get("hsnSac")]`). -/
def truthyHsns (items : List LineItem) : List String :=
  items.filterMap fun i => if i.hsnSac ≠ "" then some i.hsnSac else none

def ghostReasonGstin : String := "GSTIN not previously seen in historical data"

def ghostReasonHsn : String :=
  "HSN codes in invoice not matching vendor\x27s historical HSNs"

def ghostReasonPrice : String :=
  "Invoice total is highly deviant from vendor\x27s historical median"

/-- Signal 1: the normalized GSTIN appears nowhere in the ledger. -/
def ghostUnseenGstin (inv : Invoice) (df : List Invoice) : Bool :=
  !(df.map fun r => normalize_text r.gstNumber).contains (normalize_text inv.gstNumber)

/-- The ledger rows of the candidate's vendor. -/
def vendorRowsOf (inv : Invoice) (df : List Invoice) : List Invoice :=
  df.filter fun r =>
    decide (normalize_text r.gstNumber = normalize_text inv.gstNumber)

/-- Signal 2: some candidate HSN is absent from the vendor's historical
HSNs; evaluated only when the vendor has at least one prior invoice. -/
def ghostUnseenHsn (inv : Invoice) (df : List Invoice) : Bool :=
  let vendorRows := vendorRowsOf inv df
  let vendorHsns := vendorRows.flatMap fun r => truthyHsns r.lineItems
  if vendorRows.length > 0 then
    (truthyHsns inv.lineItems).any fun h => !vendorHsns.contains h
  else false

/-- Signal 3: at least three prior invoices and the candidate total is
more than 10 times, or less than 0.1 times, the vendor's median total. -/
def ghostPriceAnomaly (inv : Invoice) (df : List Invoice) : Bool :=
  let vendorRows := vendorRowsOf inv df
  if vendorRows.length ≥ 3 then
    let med := medianQ (vendorRows.map (·.totalAmountFloat))
    if med > 0 then
      decide (inv.totalAmountFloat > 10 * med) ||
        decide (inv.totalAmountFloat < 0.1 * med)
    else false
  else false

/-- Number of ghost signals that fire. -/
def ghostSignalCount (inv : Invoice) (df : List Invoice) : ℕ :=
  (if ghostUnseenGstin inv df then 1 else 0) +
  (if ghostUnseenHsn inv df then 1 else 0) +
  (if ghostPriceAnomaly inv df then 1 else 0)

/-- The textual reasons of the fired signals, in source order. -/
def ghostReasonsList (inv : Invoice) (df : List Invoice) : List String :=
  (if ghostUnseenGstin inv df then [ghostReasonGstin] else []) ++
  (if ghostUnseenHsn inv df then [ghostReasonHsn] else []) ++
  (if ghostPriceAnomaly inv df then [ghostReasonPrice] else [])

/-- `detect_ghost_invoice`: return the reasons only when at least two of
the three signals fire, otherwise nothing. -/
def detect_ghost_invoice (inv : Invoice) (df : List Invoice) : List String :=
  if ghostSignalCount inv df ≥ 2 then ghostReasonsList inv df else []

/-! ## Price-anomaly detector (lines 92-210) -/

/-- One row of the flattened per-item historical index. -/
structure FlatItem where
  vendorGstin : String
  invoiceDate : DateT
  itemDescription : String
  normalizedDescription : String
  itemHsn : String
  unitPrice : ℚ
deriving DecidableEq, Repr

/-- `prepare_historical_items_db`: one row per line item of every ledger
record with a parseable date, sorted by invoice date descending.  pandas
`sort_values` uses an unstable quicksort; the model fixes a stable order,
which only matters between rows with equal dates. -/
def prepare_historical_items_db (df : List Invoice) : List FlatItem :=
  let flat := df.flatMap fun row =>
    match parse_date row.date with
    | none => []
    | some d =>
      row.lineItems.map fun it =>
        { vendorGstin := normalize_text row.gstNumber
          invoiceDate := d
          itemDescription := it.description
          normalizedDescription := normalize_text it.description
          itemHsn := it.hsnSac
          unitPrice := it.unitPrice }
  insSort (fun x y =>
    decide (dateOrdinal y.invoiceDate ≤ dateOrdinal x.invoiceDate)) flat

/-- The reason string emitted for one anomalous item (source lines
199-204), with Python float formatting modelled by `fmtComma2`/`fmt1`. -/
def anomalyReason (desc hsn : String) (newPrice limit lastPrice : ℚ)
    (lastDate : DateT) : String :=
  "Price Anomaly: Item \x27" ++ desc ++ "\x27 (HSN: " ++ hsn ++
    ") unit price " ++ fmtComma2 newPrice ++ " is " ++
    fmt1 ((newPrice / limit - 1) * 100) ++
    "% above the acceptable limit of " ++ fmtComma2 limit ++
    ". (Based on last price " ++ fmtComma2 lastPrice ++ " from " ++
    strftimeYMD lastDate ++ ")."

/-- The qualifying prior purchases of one candidate item: same vendor,
same HSN, same normalized description, strictly earlier date; the filter
preserves the date-descending order of the index. -/
def priorPurchases (db : List FlatItem) (gstin : String) (nd : DateT)
    (it : LineItem) : List FlatItem :=
  db.filter fun f =>
    decide (f.vendorGstin = gstin) && decide (f.itemHsn = it.hsnSac) &&
    decide (f.normalizedDescription = normalize_text it.description) &&
    decide (dateOrdinal f.invoiceDate < dateOrdinal nd)

/-- Per-item check of `detect_line_item_price_anomalies`.  `compound`
abstracts the floating-point power `(1 + inflation_rate) ** years_diff`
of the over-30-days branch, whose exact value is irrational; the claims
under verification only exercise the 30-day branch. -/
def itemPriceCheck (compound : ℚ → ℚ → ℚ) (db : List FlatItem)
    (gstin : String) (nd : DateT) (inflation_rate margin : ℚ)
    (it : LineItem) : Option String :=
  match priorPurchases db gstin nd it with
  | [] => none
  | last :: _ =>
    if last.unitPrice ≤ 0 then none
    else
      let days : ℤ := dateOrdinal nd - dateOrdinal last.invoiceDate
      let limit :=
        if days ≤ 30 then last.unitPrice * (1 + margin)
        else
          last.unitPrice * compound (1 + inflation_rate) ((days : ℚ) / 365.25) *
            (1 + margin)
      if it.unitPrice > limit then
        some (anomalyReason it.description it.hsnSac it.unitPrice limit
          last.unitPrice last.invoiceDate)
      else none

/-- `detect_line_item_price_anomalies` with the source defaults
`inflation_rate = 0.05`, `margin = 0.20` supplied by the caller. -/
def detect_line_item_price_anomalies (compound : ℚ → ℚ → ℚ) (inv : Invoice)
    (db : List FlatItem) (inflation_rate margin : ℚ) : List String :=
  if db.isEmpty then []
  else
    match parse_date inv.date with
    | none => []
    | some nd =>
      inv.lineItems.filterMap
        (itemPriceCheck compound db (normalize_text inv.gstNumber) nd
          inflation_rate margin)

/-! ## Near-duplicate entries (`_build_near_dup_entry`, lines 275-340) -/

/-- The comparison features recorded for a near-duplicate pair. -/
structure FeatureSet where
  invoice_no_sim : ℚ
  vendor_name_sim : ℚ
  gstin_match : ℚ
  total_rel_diff : ℚ
  date_diff_days : Option ℕ
  lineitems_sim : ℚ
  hsn_mismatch_norm : ℚ
  final_confidence : ℚ
deriving DecidableEq, Repr

/-- One near-duplicate candidate as assembled by `_build_near_dup_entry`
(the summary fields and the full existing record included). -/
structure NearDup where
  db_row_index : ℕ
  existing_invoice_no : String
  existing_vendor_gstin : String
  existing_invoice_date : String
  existing_total_amount : ℚ
  features : FeatureSet
  final_confidence : ℚ
  reasons : List String
  existing_full : Invoice
deriving DecidableEq, Repr

/-- `_build_near_dup_entry`: features (with the source's rounding), the
weighted confidence (weights 0.35 / 0.20 / 0.15 / 0.20 / 0.10, clamped to
[0,1], rounded to 4 decimals) and the human-readable reasons. -/
def build_near_dup_entry (newInv : Invoice) (idx : ℕ) (existing : Invoice)
    (invnoSim lineSim totalRelDiff : ℚ) (dateDiff : Option ℕ)
    (reasonSpecial : Option String) : NearDup :=
  let newHsns := truthyHsns newInv.lineItems
  let oldHsns := truthyHsns existing.lineItems
  let hsnMismatch : ℚ := if newHsns.toFinset = oldHsns.toFinset then 0 else 1
  let fInv := roundTo 3 invnoSim
  let fVnd := roundTo 3 (text_similarity newInv.vendorName existing.vendorName)
  let fGst : ℚ :=
    if normalize_text newInv.gstNumber = normalize_text existing.gstNumber then 1
    else 0
  let fTrd := roundTo 6 totalRelDiff
  let fLin := roundTo 3 lineSim
  let amountFactor : ℚ := 1 - min 1 fTrd
  let dateFactor : ℚ :=
    match dateDiff with
    | none => 1
    | some dd => if (dd : ℚ) ≤ 2 then 1 else max 0 (1 - (dd : ℚ) / 30)
  let finalScore :=
    0.35 * (fInv / 100) + 0.20 * dateFactor + 0.15 * fGst +
      0.20 * (fLin / 100) + 0.10 * amountFactor
  let conf := roundTo 4 (max 0 (min 1 finalScore))
  let reasons :=
    (match reasonSpecial with | some r => [r] | none => []) ++
    (if fInv ≥ 85 then ["Invoice number similar"] else []) ++
    (if fLin ≥ 50 then ["Line items similar"] else []) ++
    (if fTrd ≤ 0.05 then ["Totals nearly identical"] else []) ++
    (if (match dateDiff with | some dd => decide (dd ≤ 3) | none => false) then
      ["Dates close"] else []) ++
    (if fGst = 1 then ["GSTIN exact match"] else [])
  { db_row_index := idx
    existing_invoice_no := existing.invoiceNumber
    existing_vendor_gstin := existing.gstNumber
    existing_invoice_date := existing.date
    existing_total_amount := existing.totalAmountFloat
    features :=
      { invoice_no_sim := fInv, vendor_name_sim := fVnd, gstin_match := fGst
        total_rel_diff := fTrd, date_diff_days := dateDiff
        lineitems_sim := fLin, hsn_mismatch_norm := hsnMismatch
        final_confidence := conf }
    final_confidence := conf
    reasons := reasons
    existing_full := existing }

/-! ## The screening cascade (`run_historical_checks`, lines 345-559) -/

/-- The line-item content scorer abstracting `lineitem_similarity`
(lines 61-90): CountVectorizer term counts plus cosine similarity × 100,
whose exact value is irrational in general.  Theorems quantify over it;
concrete instantiations in witnesses agree with the source scorer on the
pairs they are applied to. -/
def LineSimFn : Type := List LineItem → List LineItem → ℚ

/-- Relative total-amount difference (lines 444-448 and repeats):
`|new - existing| / existing` when `existing > 0`, else `0` when both are
zero and `1` otherwise. -/
def totalRelDiffQ (newT existT : ℚ) : ℚ :=
  if existT > 0 then |newT - existT| / existT
  else if newT = 0 then 0 else 1

/-- The structured report returned by `run_historical_checks`. -/
structure ScreenResult where
  invoice_hash : String
  exact_duplicate : Bool
  exact_duplicate_match : Option ℕ
  near_duplicates : List NearDup
  ghost_signals : List String
  line_item_price_anomalies : List String
  overall_flag : String
  reasons : List String
deriving DecidableEq, Repr

/-- Step 1 loop: index of the first ledger record whose fingerprint
equals the candidate's. -/
def findHashAux (h : String) : ℕ → List Invoice → Option ℕ
  | _, [] => none
  | n, e :: rest =>
    if compute_hash e = h then some n else findHashAux h (n + 1) rest

/-- Fire condition of the invoice-number priority pass (lines 452-456):
number similarity ≥ 95, relative total difference ≤ 0.05, and at least one
corroborating signal (line similarity ≥ 50, GSTIN match, or a parseable
date difference ≤ 3 days). -/
def pass2fire (o : LineSimFn) (inv e : Invoice) : Bool :=
  let invnoSim := text_similarity inv.invoiceNumber e.invoiceNumber
  let trd := totalRelDiffQ inv.totalAmountFloat e.totalAmountFloat
  if decide (invnoSim ≥ 95) && decide (trd ≤ 0.05) then
    let lineSim := o inv.lineItems e.lineItems
    let dd := date_diff_days inv.date e.date
    decide (lineSim ≥ 50) ||
      decide (normalize_text inv.gstNumber = normalize_text e.gstNumber) ||
      (match dd with | some n => decide (n ≤ 3) | none => false)
  else false

/-- The near-duplicate entry emitted by the invoice-number pass. -/
def pass2entry (o : LineSimFn) (inv : Invoice) (idx : ℕ) (e : Invoice) : NearDup :=
  build_near_dup_entry inv idx e
    (text_similarity inv.invoiceNumber e.invoiceNumber)
    (o inv.lineItems e.lineItems)
    (totalRelDiffQ inv.totalAmountFloat e.totalAmountFloat)
    (date_diff_days inv.date e.date)
    (some "Invoice number nearly identical and amounts match")

/-- Step 2 loop: first record firing the invoice-number pass. -/
def findFireAux (o : LineSimFn) (inv : Invoice) :
    ℕ → List Invoice → Option (ℕ × Invoice)
  | _, [] => none
  | n, e :: rest =>
    if pass2fire o inv e then some (n, e) else findFireAux o inv (n + 1) rest

/-- Fire condition of the date-priority pass (lines 478-479): parseable
date difference ≤ 1 day, totals within 0.05, vendor names ≥ 75 similar,
and line similarity ≥ 40 or GSTIN match. -/
def pass3fire (o : LineSimFn) (inv e : Invoice) : Bool :=
  let dd := date_diff_days inv.date e.date
  let trd := totalRelDiffQ inv.totalAmountFloat e.totalAmountFloat
  let vs := text_similarity inv.vendorName e.vendorName
  (match dd with | some n => decide (n ≤ 1) | none => false) &&
    decide (trd ≤ 0.05) && decide (vs ≥ 75) &&
    (decide (o inv.lineItems e.lineItems ≥ 40) ||
      decide (normalize_text inv.gstNumber = normalize_text e.gstNumber))

/-- The near-duplicate entry emitted by the date pass. -/
def pass3entry (o : LineSimFn) (inv : Invoice) (idx : ℕ) (e : Invoice) : NearDup :=
  build_near_dup_entry inv idx e
    (text_similarity inv.invoiceNumber e.invoiceNumber)
    (o inv.lineItems e.lineItems)
    (totalRelDiffQ inv.totalAmountFloat e.totalAmountFloat)
    (date_diff_days inv.date e.date)
    (some "Dates and totals very close")

/-- The state threaded through the non-short-circuiting passes: the
accumulated `near_duplicates`, `overall_flag` and `reasons` of the
result dict. -/
structure ScanSt where
  nearDups : List NearDup
  flag : String
  reasons : List String
deriving DecidableEq, Repr

/-- Step 3 loop (lines 463-484): every matching record appends an entry,
sets the flag to MEDIUM and appends a reason; no short-circuit. -/
def pass3Aux (o : LineSimFn) (inv : Invoice) :
    ScanSt → ℕ → List Invoice → ScanSt
  | st, _, [] => st
  | st, n, e :: rest =>
    if pass3fire o inv e then
      pass3Aux o inv
        { nearDups := st.nearDups ++ [pass3entry o inv n e]
          flag := "MEDIUM_RISK_POSSIBLE_DUPLICATE"
          reasons :=
            st.reasons ++ ["Invoice date and totals close -> possible duplicate"] }
        (n + 1) rest
    else pass3Aux o inv st (n + 1) rest

/-- Emission condition of the tax-ID pass (lines 491-507): GSTIN match,
at least one supporting signal (totals within 0.05, number similarity
≥ 80, line similarity ≥ 60), and not suppressed (suppression: line
similarity < 30 and number similarity < 90). -/
def pass4emitCond (o : LineSimFn) (inv e : Invoice) : Bool :=
  let gsame := decide (normalize_text inv.gstNumber = normalize_text e.gstNumber)
  let trd := totalRelDiffQ inv.totalAmountFloat e.totalAmountFloat
  let invnoSim := text_similarity inv.invoiceNumber e.invoiceNumber
  let lineSim := o inv.lineItems e.lineItems
  let supporting :=
    (if decide (trd ≤ 0.05) then 1 else 0) +
    (if decide (invnoSim ≥ 80) then 1 else 0) +
    (if decide (lineSim ≥ 60) then 1 else 0)
  gsame && decide (supporting ≥ 1) &&
    !(decide (lineSim < 30) && decide (invnoSim < 90))

/-- Escalation condition of the tax-ID pass (line 514): number similarity
≥ 90 or totals within 0.02. -/
def pass4escCond (_o : LineSimFn) (inv e : Invoice) : Bool :=
  decide (text_similarity inv.invoiceNumber e.invoiceNumber ≥ 90) ||
    decide (totalRelDiffQ inv.totalAmountFloat e.totalAmountFloat ≤ 0.02)

/-- The near-duplicate entry emitted by the tax-ID pass. -/
def pass4entry (o : LineSimFn) (inv : Invoice) (idx : ℕ) (e : Invoice) : NearDup :=
  build_near_dup_entry inv idx e
    (text_similarity inv.invoiceNumber e.invoiceNumber)
    (o inv.lineItems e.lineItems)
    (totalRelDiffQ inv.totalAmountFloat e.totalAmountFloat)
    (date_diff_days inv.date e.date)
    (some "GSTIN matches and supporting signals present")

/-- Step 4 loop (lines 486-517): emitting records append an entry; an
escalating record returns the whole report immediately with the HIGH
flag; otherwise the loop continues with the flag untouched. -/
def pass4Aux (o : LineSimFn) (inv : Invoice) (hash : String) :
    ScanSt → ℕ → List Invoice → ScreenResult ⊕ ScanSt
  | st, _, [] => Sum.inr st
  | st, n, e :: rest =>
    if pass4emitCond o inv e then
      let st' := { st with nearDups := st.nearDups ++ [pass4entry o inv n e] }
      if pass4escCond o inv e then
        Sum.inl
          { invoice_hash := hash
            exact_duplicate := false
            exact_duplicate_match := none
            near_duplicates := st'.nearDups
            ghost_signals := []
            line_item_price_anomalies := []
            overall_flag := "HIGH_RISK_NEAR_DUPLICATE"
            reasons :=
              st'.reasons ++ ["GSTIN match with strong supporting signals -> high risk"] }
      else pass4Aux o inv hash st' (n + 1) rest
    else pass4Aux o inv hash st (n + 1) rest

/-- The entries the tax-ID pass emits while scanning `l` from index `n`
(used to state what `pass4Aux` accumulates when it does not escalate). -/
def pass4emits (o : LineSimFn) (inv : Invoice) : ℕ → List Invoice → List NearDup
  | _, [] => []
  | n, e :: rest =>
    (if pass4emitCond o inv e then [pass4entry o inv n e] else []) ++
      pass4emits o inv (n + 1) rest

/-- The sort key of step 7 (line 539-541): number similarity, line
similarity, negated total difference — sorted descending. -/
def ndSortKey (nd : NearDup) : ℚ × ℚ × ℚ :=
  (nd.features.invoice_no_sim, nd.features.lineitems_sim,
    -nd.features.total_rel_diff)

/-- Lexicographic order on the sort-key triples. -/
def lexLe3 (p q : ℚ × ℚ × ℚ) : Prop :=
  p.1 < q.1 ∨ (p.1 = q.1 ∧ (p.2.1 < q.2.1 ∨ (p.2.1 = q.2.1 ∧ p.2.2 ≤ q.2.2)))

instance (p q : ℚ × ℚ × ℚ) : Decidable (lexLe3 p q) := by
  unfold lexLe3; infer_instance

/-- "May precede" relation of the descending stable sort: the key of the
left entry is lexicographically at least the key of the right one. -/
def ndKeyGe (x y : NearDup) : Bool :=
  decide (lexLe3 (ndSortKey y) (ndSortKey x))

/-- `sorted(..., key=score_key, reverse=True)`: stable descending sort. -/
def sortNearDups (l : List NearDup) : List NearDup :=
  insSort ndKeyGe l

/-- The confidence-to-flag mapping of step 7 (lines 548-550). -/
def confFlag (conf : ℚ) : String :=
  if conf ≥ 0.9 then "HIGH_RISK_NEAR_DUPLICATE"
  else if conf ≥ 0.75 then "MEDIUM_RISK_POSSIBLE_DUPLICATE"
  else "LOW_RISK_RECHECK"

/-- Steps 7 and 8 (lines 537-559): sort the accumulated near-duplicates
and, only when the flag is still CLEAN, classify by the top confidence;
with no near-duplicates, add the no-findings reason when none exists. -/
def finalizeResult (hash : String) (st : ScanSt) : ScreenResult :=
  match sortNearDups st.nearDups with
  | [] =>
    { invoice_hash := hash
      exact_duplicate := false
      exact_duplicate_match := none
      near_duplicates := []
      ghost_signals := []
      line_item_price_anomalies := []
      overall_flag := st.flag
      reasons :=
        if st.reasons.isEmpty then
          ["No duplicates, anomalies, or ghost signals found."]
        else st.reasons }
  | top :: rest =>
    if st.flag = "CLEAN" then
      { invoice_hash := hash
        exact_duplicate := false
        exact_duplicate_match := none
        near_duplicates := top :: rest
        ghost_signals := []
        line_item_price_anomalies := []
        overall_flag := confFlag top.features.final_confidence
        reasons := st.reasons ++ ["Similarity-based match found; review required"] }
    else
      { invoice_hash := hash
        exact_duplicate := false
        exact_duplicate_match := none
        near_duplicates := top :: rest
        ghost_signals := []
        line_item_price_anomalies := []
        overall_flag := st.flag
        reasons := st.reasons }

/-- Steps 5 and 6 (lines 519-535) followed by steps 7 and 8: the ghost
check returns immediately when it fires (flag set only when still CLEAN),
then the price check likewise, then the verdict builder. -/
def afterPasses (compound : ℚ → ℚ → ℚ) (inv : Invoice) (df : List Invoice)
    (hash : String) (st : ScanSt) : ScreenResult :=
  let ghost := detect_ghost_invoice inv df
  if !ghost.isEmpty then
    { invoice_hash := hash
      exact_duplicate := false
      exact_duplicate_match := none
      near_duplicates := st.nearDups
      ghost_signals := ghost
      line_item_price_anomalies := []
      overall_flag :=
        if st.flag = "CLEAN" then "POTENTIAL_GHOST_INVOICE" else st.flag
      reasons := st.reasons ++ ghost }
  else
    let pa := detect_line_item_price_anomalies compound inv
      (prepare_historical_items_db df) 0.05 0.20
    if !pa.isEmpty then
      { invoice_hash := hash
        exact_duplicate := false
        exact_duplicate_match := none
        near_duplicates := st.nearDups
        ghost_signals := []
        line_item_price_anomalies := pa
        overall_flag :=
          if st.flag = "CLEAN" then "PRICE_ANOMALY" else st.flag
        reasons := st.reasons ++ pa }
    else finalizeResult hash st

/-- The whole cascade over a parsed ledger (steps 1-8). -/
def screenRows (o : LineSimFn) (compound : ℚ → ℚ → ℚ) (inv : Invoice)
    (df : List Invoice) : ScreenResult :=
  let newHash := compute_hash inv
  match findHashAux newHash 0 df with
  | some idx =>
    { invoice_hash := newHash
      exact_duplicate := true
      exact_duplicate_match := some idx
      near_duplicates := []
      ghost_signals := []
      line_item_price_anomalies := []
      overall_flag := "EXACT_DUPLICATE"
      reasons := ["Exact duplicate: identical vendor+invoice+date+amount"] }
  | none =>
    match findFireAux o inv 0 df with
    | some (idx, e) =>
      { invoice_hash := newHash
        exact_duplicate := false
        exact_duplicate_match := none
        near_duplicates := [pass2entry o inv idx e]
        ghost_signals := []
        line_item_price_anomalies := []
        overall_flag := "HIGH_RISK_NEAR_DUPLICATE"
        reasons := ["Invoice number extremely similar + totals match -> high risk"] }
    | none =>
      let st3 := pass3Aux o inv ⟨[], "CLEAN", []⟩ 0 df
      match pass4Aux o inv newHash st3 0 df with
      | Sum.inl res => res
      | Sum.inr st => afterPasses compound inv df newHash st

/-- How the historical CSV presented itself to `run_historical_checks`:
file absent, file present but empty (`pd.errors.EmptyDataError`), or a
parsed list of rows (`get_existing_from_row` applied to each row). -/
inductive LedgerSource where
  | missing : LedgerSource
  | emptyFile : LedgerSource
  | rows : List Invoice → LedgerSource
deriving DecidableEq, Repr

/-- `run_historical_checks`: the two no-history shortcuts (lines 366-386)
and the cascade. -/
def run_historical_checks (o : LineSimFn) (compound : ℚ → ℚ → ℚ)
    (parsedData : Invoice) : LedgerSource → ScreenResult
  | .missing =>
    { invoice_hash := compute_hash parsedData
      exact_duplicate := false
      exact_duplicate_match := none
      near_duplicates := []
      ghost_signals := []
      line_item_price_anomalies := []
      overall_flag := "CLEAN"
      reasons :=
        ["No historical data to compare against. New invoice will be added to history."] }
  | .emptyFile =>
    { invoice_hash := compute_hash parsedData
      exact_duplicate := false
      exact_duplicate_match := none
      near_duplicates := []
      ghost_signals := []
      line_item_price_anomalies := []
      overall_flag := "CLEAN"
      reasons :=
        ["Historical data file is empty. New invoice will be added to history."] }
  | .rows df => screenRows o compound parsedData df

/-! ## Concrete collaborators for witness runs -/

/-- The concatenated description document of one side, as
`" ".join(descriptions)` builds it. -/
def descConcat (items : List LineItem) : String :=
  String.intercalate " " (items.map (·.description))

/-- A concrete line-item scorer agreeing with `lineitem_similarity` on
every pair it is applied to below: two identical non-empty description
documents have cosine similarity exactly 1 (score 100); a pair where one
side is empty scores 0.0 in the source; and the remaining pairs used in
witnesses have disjoint vocabularies, for which the cosine is exactly 0. -/
def identSim : LineSimFn := fun i1 i2 =>
  if descConcat i1 ≠ "" && decide (descConcat i1 = descConcat i2) then 100 else 0

/-- A concrete scorer for runs whose candidate has no line items: with an
empty description document the source returns 0.0 for every pair. -/
def zeroSim : LineSimFn := fun _ _ => 0

/-- A concrete stand-in for the floating-point compounding factor; every
run below stays on the 30-day branch, which never consults it. -/
def compoundOne : ℚ → ℚ → ℚ := fun _ _ => 1

/-- Does `lead` begin `l`? -/
def leadEq : List Char → List Char → Bool
  | [], _ => true
  | _ :: _, [] => false
  | a :: as, b :: bs => a = b && leadEq as bs

/-- Does `needle` occur inside `hay`? -/
def segAt : List Char → List Char → Bool
  | needle, [] => needle.isEmpty
  | needle, c :: rest => leadEq needle (c :: rest) || segAt needle rest

/-- Substring containment on strings. -/
def strHasSeg (hay needle : String) : Bool :=
  segAt needle.toList hay.toList

/-- Case-insensitive substring containment. -/
def strHasSegCI (hay needle : String) : Bool :=
  strHasSeg (String.mk (hay.toList.map Char.toLower))
    (String.mk (needle.toList.map Char.toLower))

/-- The `overallFlag` values the specification enumerates (§4.4 plus
CLEAN, EXACT_DUPLICATE and POTENTIAL_GHOST_INVOICE). -/
def specFlagStrings : List String :=
  ["CLEAN", "EXACT_DUPLICATE", "HIGH_RISK_NEAR_DUPLICATE",
    "MEDIUM_RISK_POSSIBLE_DUPLICATE", "LOW_RISK_RECHECK",
    "POTENTIAL_GHOST_INVOICE"]

/-- Shorthand for building a sample invoice. -/
def mkInv (inN da ve gs : String) (tot : ℚ) (items : List LineItem) : Invoice :=
  { invoiceNumber := inN, date := da, vendorName := ve, gstNumber := gs
    totalAmountFloat := tot, lineItems := items }

/-- Candidate for the exact-duplicate run: identical key fields to the
ledger record. -/
def exactCand : Invoice := mkInv "I1" "2024-01-01" "acme" "G1" 100 []

def exactLedger : List Invoice := [mkInv "I1" "2024-01-01" "acme" "G1" 100 []]

/-- Candidate whose invoice number normalizes to the ledger record's
(`INV-1002` vs `INV1002`), same GSTIN, same total, dates a day apart. -/
def invnoCand : Invoice := mkInv "INV-1002" "2024-01-01" "acme" "G1" 100 []

def invnoLedger : List Invoice := [mkInv "INV1002" "2024-01-02" "acme" "G1" 100 []]

/-- Tax-ID-pass run with no escalation: same GSTIN, identical line items
(line similarity 100), totals 4% apart, very different invoice numbers,
dates ten days apart. -/
def taxCand : Invoice :=
  mkInv "a111" "2024-01-11" "acme" "G1" 104 [⟨"widget gear", "8471", 100⟩]

def taxLedger : List Invoice :=
  [mkInv "z999" "2024-01-01" "acme" "G1" 100 [⟨"widget gear", "8471", 100⟩]]

/-- Tax-ID-pass run that escalates: identical invoice numbers (similarity
100 ≥ 90) but totals far apart, so the invoice-number pass's total
condition fails while the tax pass fires and escalates. -/
def taxEscCand : Invoice := mkInv "AB1" "2024-01-11" "acme" "G1" 200 []

def taxEscLedger : List Invoice := [mkInv "AB1" "2024-01-01" "acme" "G1" 100 []]

/-- Date-pass run: one day apart, totals 3% apart, same vendor and GSTIN,
identical line items, number similarity 83.333 — the date pass sets
MEDIUM, the tax pass emits without escalating, and the top confidence
reaches 0.9387. -/
def medCand : Invoice :=
  mkInv "INV-001" "2024-01-02" "acme" "G1" 103 [⟨"widget gear", "8471", 100⟩]

def medLedger : List Invoice :=
  [mkInv "INV-002" "2024-01-01" "acme" "G1" 100 [⟨"widget gear", "8471", 100⟩]]

/-- A brand-new GSTIN with HSN codes and words unseen anywhere, normal
total: only the unseen-GSTIN ghost signal can fire. -/
def ghostCand : Invoice :=
  mkInv "B77" "2024-01-05" "newco" "GNEW" 100 [⟨"thing", "9999", 50⟩]

def ghostLedger : List Invoice :=
  [mkInv "A1" "2024-01-01" "acme" "G1" 100 [⟨"widget", "8471", 10⟩]]

/-- Price run: the same item sold at 100 thirty days before the candidate
date, candidate price 200. -/
def priceCand : Invoice :=
  mkInv "N1" "2024-01-31" "acme" "G1" 200 [⟨"Widget", "8471", 200⟩]

def priceLedger : List Invoice :=
  [mkInv "O1" "2024-01-01" "acme" "G1" 100 [⟨"Widget", "8471", 100⟩]]

/-- Price-anomaly screening run that also accumulated a tax-pass
near-duplicate: identical items at an inflated price, totals far apart. -/
def anomCand : Invoice :=
  mkInv "a111" "2024-01-11" "acme" "G1" 1000 [⟨"widget gear", "8471", 200⟩]

def anomLedger : List Invoice :=
  [mkInv "z999" "2024-01-01" "acme" "G1" 100 [⟨"widget gear", "8471", 100⟩]]

/-- Fingerprint boundary shift: tax ID `A` with invoice number `B1`. -/
def hashInvA : Invoice := mkInv "B1" "2024-01-01" "v" "A" 100 []

/-- Fingerprint boundary shift: tax ID `AB` with invoice number `1`;
the concatenated pre-hash input coincides with `hashInvA`'s. -/
def hashInvB : Invoice := mkInv "1" "2024-01-01" "v" "AB" 100 []

theorem lexLe3_total (p q : ℚ × ℚ × ℚ) : lexLe3 p q ∨ lexLe3 q p := by
  unfold lexLe3
  rcases lt_trichotomy p.1 q.1 with h | h | h
  · exact Or.inl (Or.inl h)
  · rcases lt_trichotomy p.2.1 q.2.1 with h2 | h2 | h2
    · exact Or.inl (Or.inr ⟨h, Or.inl h2⟩)
    · rcases le_total p.2.2 q.2.2 with h3 | h3
      · exact Or.inl (Or.inr ⟨h, Or.inr ⟨h2, h3⟩⟩)
      · exact Or.inr (Or.inr ⟨h.symm, Or.inr ⟨h2.symm, h3⟩⟩)
    · exact Or.inr (Or.inr ⟨h.symm, Or.inl h2⟩)
  · exact Or.inr (Or.inl h)

theorem lexLe3_trans {p q r : ℚ × ℚ × ℚ} (h1 : lexLe3 p q) (h2 : lexLe3 q r) :
    lexLe3 p r := by
  unfold lexLe3 at *
  rcases h1 with h1 | ⟨e1, h1⟩ <;> rcases h2 with h2 | ⟨e2, h2⟩
  · exact Or.inl (h1.trans h2)
  · exact Or.inl (e2 ▸ h1)
  · exact Or.inl (e1 ▸ h2)
  · refine Or.inr ⟨e1.trans e2, ?_⟩
    rcases h1 with h1 | ⟨f1, h1⟩ <;> rcases h2 with h2 | ⟨f2, h2⟩
    · exact Or.inl (h1.trans h2)
    · exact Or.inl (f2 ▸ h1)
    · exact Or.inl (f1 ▸ h2)
    · exact Or.inr ⟨f1.trans f2, h1.trans h2⟩

theorem ndKeyGe_total (a b : NearDup) : (ndKeyGe a b || ndKeyGe b a) = true := by
  rcases lexLe3_total (ndSortKey b) (ndSortKey a) with h | h <;>
    simp [ndKeyGe, h]

theorem ndKeyGe_trans (a b c : NearDup) (h1 : ndKeyGe a b = true)
    (h2 : ndKeyGe b c = true) : ndKeyGe a c = true := by
  simp only [ndKeyGe, decide_eq_true_eq] at *
  exact lexLe3_trans h2 h1

theorem findHashAux_none (h : String) {l : List Invoice}
    (hn : ∀ r ∈ l, compute_hash r ≠ h) : ∀ n, findHashAux h n l = none := by
  induction l with
  | nil => intro n; rfl
  | cons e rest ih =>
    intro n
    rw [findHashAux, if_neg (hn e (List.mem_cons_self _ _))]
    exact ih (fun r hr => hn r (List.mem_cons_of_mem _ hr)) (n + 1)

theorem findHashAux_spec (h : String) {l : List Invoice} :
    ∀ n, (∃ r ∈ l, compute_hash r = h) →
      ∃ k e, findHashAux h n l = some (n + k) ∧ l[k]? = some e ∧
        compute_hash e = h := by
  induction l with
  | nil => rintro n ⟨r, hr, -⟩; cases hr
  | cons x rest ih =>
    intro n hex
    by_cases hx : compute_hash x = h
    · exact ⟨0, x, by rw [findHashAux, if_pos hx, Nat.add_zero], by simp, hx⟩
    · obtain ⟨r, hr, hrh⟩ := hex
      rcases List.mem_cons.mp hr with rfl | hr'
      · exact absurd hrh hx
      · obtain ⟨k, e, h1, h2, h3⟩ := ih (n + 1) ⟨r, hr', hrh⟩
        refine ⟨k + 1, e, ?_, by simpa using h2, h3⟩
        rw [findHashAux, if_neg hx, h1]
        congr 1
        omega

theorem findFireAux_none (o : LineSimFn) (inv : Invoice) {l : List Invoice}
    (hn : ∀ e ∈ l, pass2fire o inv e = false) :
    ∀ n, findFireAux o inv n l = none := by
  induction l with
  | nil => intro n; rfl
  | cons e rest ih =>
    intro n
    rw [findFireAux, if_neg (by simp [hn e (List.mem_cons_self _ _)])]
    exact ih (fun r hr => hn r (List.mem_cons_of_mem _ hr)) (n + 1)

theorem findFireAux_first (o : LineSimFn) (inv : Invoice) {l : List Invoice}
    {k : ℕ} {e : Invoice} (hk : l[k]? = some e)
    (hf : pass2fire o inv e = true)
    (hfirst : ∀ j < k, ∀ r, l[j]? = some r → pass2fire o inv r = false) :
    ∀ n, findFireAux o inv n l = some (n + k, e) := by
  induction l generalizing k with
  | nil => cases hk
  | cons x rest ih =>
    intro n
    cases k with
    | zero =>
      obtain rfl : x = e := by simpa using hk
      rw [findFireAux, if_pos hf, Nat.add_zero]
    | succ k' =>
      have hx : pass2fire o inv x = false := hfirst 0 (Nat.succ_pos _) x (by simp)
      rw [findFireAux, if_neg (by simp [hx])]
      have := ih (by simpa using hk)
        (fun j hj r hr => hfirst (j + 1) (by omega) r (by simpa using hr)) (n + 1)
      rw [this]
      congr 2
      omega

theorem pass4Aux_no_esc (o : LineSimFn) (inv : Invoice) (h : String)
    {l : List Invoice}
    (hne : ∀ e ∈ l, pass4emitCond o inv e = true → pass4escCond o inv e = false) :
    ∀ st n, pass4Aux o inv h st n l =
      Sum.inr ⟨st.nearDups ++ pass4emits o inv n l, st.flag, st.reasons⟩ := by
  induction l with
  | nil => intro st n; simp [pass4Aux, pass4emits]
  | cons e rest ih =>
    intro st n
    by_cases hemit : pass4emitCond o inv e = true
    · have hesc := hne e (List.mem_cons_self _ _) hemit
      rw [pass4Aux, if_pos hemit, if_neg (by simp [hesc])]
      rw [ih (fun x hx => hne x (List.mem_cons_of_mem _ hx))]
      simp [pass4emits, hemit]
    · rw [pass4Aux, if_neg hemit]
      rw [ih (fun x hx => hne x (List.mem_cons_of_mem _ hx))]
      simp [pass4emits, hemit]

theorem pass4Aux_esc (o : LineSimFn) (inv : Invoice) (h : String)
    {l₁ : List Invoice} {e : Invoice} (l₂ : List Invoice)
    (hpre : ∀ x ∈ l₁, pass4emitCond o inv x = true → pass4escCond o inv x = false)
    (hemit : pass4emitCond o inv e = true) (hesc : pass4escCond o inv e = true) :
    ∀ st n, pass4Aux o inv h st n (l₁ ++ e :: l₂) =
      Sum.inl
        { invoice_hash := h
          exact_duplicate := false
          exact_duplicate_match := none
          near_duplicates := st.nearDups ++ pass4emits o inv n l₁ ++
            [pass4entry o inv (n + l₁.length) e]
          ghost_signals := []
          line_item_price_anomalies := []
          overall_flag := "HIGH_RISK_NEAR_DUPLICATE"
          reasons :=
            st.reasons ++ ["GSTIN match with strong supporting signals -> high risk"] } := by
  induction l₁ with
  | nil =>
    intro st n
    rw [List.nil_append, pass4Aux, if_pos hemit, if_pos hesc]
    simp [pass4emits]
  | cons x rest ih =>
    intro st n
    rw [List.cons_append]
    by_cases hx : pass4emitCond o inv x = true
    · have hescx := hpre x (List.mem_cons_self _ _) hx
      rw [pass4Aux, if_pos hx, if_neg (by simp [hescx])]
      rw [ih (fun y hy => hpre y (List.mem_cons_of_mem _ hy)),
        show n + 1 + rest.length = n + (rest.length + 1) from by omega]
      simp [pass4emits, hx, List.append_assoc]
    · rw [pass4Aux, if_neg hx]
      rw [ih (fun y hy => hpre y (List.mem_cons_of_mem _ hy)),
        show n + 1 + rest.length = n + (rest.length + 1) from by omega]
      simp [pass4emits, hx, List.append_assoc]

theorem detect_ghost_lt2 {inv : Invoice} {df : List Invoice}
    (h : ghostSignalCount inv df < 2) : detect_ghost_invoice inv df = [] := by
  rw [detect_ghost_invoice, if_neg (by omega)]

theorem detect_ghost_ge2 {inv : Invoice} {df : List Invoice}
    (h : 2 ≤ ghostSignalCount inv df) :
    detect_ghost_invoice inv df = ghostReasonsList inv df := by
  rw [detect_ghost_invoice, if_pos h]

theorem vendorRows_nil_of_unseen {inv : Invoice} {df : List Invoice}
    (h : ghostUnseenGstin inv df = true) : vendorRowsOf inv df = [] := by
  rw [vendorRowsOf, List.filter_eq_nil_iff]
  intro r hr
  simp only [decide_eq_true_eq]
  intro heq
  simp [ghostUnseenGstin, List.contains_eq_any_beq] at h
  exact h r hr heq

theorem ghost_unseen_single {inv : Invoice} {df : List Invoice}
    (h : ghostUnseenGstin inv df = true) : detect_ghost_invoice inv df = [] := by
  have hv := vendorRows_nil_of_unseen h
  have h2 : ghostUnseenHsn inv df = false := by
    rw [ghostUnseenHsn]
    simp [hv]
  have h3 : ghostPriceAnomaly inv df = false := by
    rw [ghostPriceAnomaly]
    simp [hv]
  exact detect_ghost_lt2 (by simp [ghostSignalCount, h, h2, h3])

theorem run_rows_eq (o : LineSimFn) (cmp : ℚ → ℚ → ℚ) (inv : Invoice)
    (df : List Invoice) :
    run_historical_checks o cmp inv (.rows df) = screenRows o cmp inv df := rfl

theorem screenRows_exact (o : LineSimFn) (cmp : ℚ → ℚ → ℚ) (inv : Invoice)
    {df : List Invoice} {k : ℕ}
    (h1 : findHashAux (compute_hash inv) 0 df = some k) :
    screenRows o cmp inv df =
      { invoice_hash := compute_hash inv
        exact_duplicate := true
        exact_duplicate_match := some k
        near_duplicates := []
        ghost_signals := []
        line_item_price_anomalies := []
        overall_flag := "EXACT_DUPLICATE"
        reasons := ["Exact duplicate: identical vendor+invoice+date+amount"] } := by
  simp only [screenRows, h1]

theorem screenRows_pass2 (o : LineSimFn) (cmp : ℚ → ℚ → ℚ) (inv : Invoice)
    {df : List Invoice} {k : ℕ} {e : Invoice}
    (h1 : findHashAux (compute_hash inv) 0 df = none)
    (h2 : findFireAux o inv 0 df = some (k, e)) :
    screenRows o cmp inv df =
      { invoice_hash := compute_hash inv
        exact_duplicate := false
        exact_duplicate_match := none
        near_duplicates := [pass2entry o inv k e]
        ghost_signals := []
        line_item_price_anomalies := []
        overall_flag := "HIGH_RISK_NEAR_DUPLICATE"
        reasons := ["Invoice number extremely similar + totals match -> high risk"] } := by
  simp only [screenRows, h1, h2]

theorem screenRows_inl (o : LineSimFn) (cmp : ℚ → ℚ → ℚ) (inv : Invoice)
    {df : List Invoice} {res : ScreenResult}
    (h1 : findHashAux (compute_hash inv) 0 df = none)
    (h2 : findFireAux o inv 0 df = none)
    (h4 : pass4Aux o inv (compute_hash inv)
      (pass3Aux o inv ⟨[], "CLEAN", []⟩ 0 df) 0 df = Sum.inl res) :
    screenRows o cmp inv df = res := by
  simp only [screenRows, h1, h2, h4]

theorem screenRows_inr (o : LineSimFn) (cmp : ℚ → ℚ → ℚ) (inv : Invoice)
    {df : List Invoice} {st : ScanSt}
    (h1 : findHashAux (compute_hash inv) 0 df = none)
    (h2 : findFireAux o inv 0 df = none)
    (h4 : pass4Aux o inv (compute_hash inv)
      (pass3Aux o inv ⟨[], "CLEAN", []⟩ 0 df) 0 df = Sum.inr st) :
    screenRows o cmp inv df = afterPasses cmp inv df (compute_hash inv) st := by
  simp only [screenRows, h1, h2, h4]

theorem afterPasses_ghost (cmp : ℚ → ℚ → ℚ) (inv : Invoice) (df : List Invoice)
    (hash : String) (st : ScanSt)
    (hg : detect_ghost_invoice inv df ≠ []) :
    afterPasses cmp inv df hash st =
      { invoice_hash := hash
        exact_duplicate := false
        exact_duplicate_match := none
        near_duplicates := st.nearDups
        ghost_signals := detect_ghost_invoice inv df
        line_item_price_anomalies := []
        overall_flag :=
          if st.flag = "CLEAN" then "POTENTIAL_GHOST_INVOICE" else st.flag
        reasons := st.reasons ++ detect_ghost_invoice inv df } := by
  rw [afterPasses, if_pos (by simpa [List.isEmpty_iff] using hg)]

theorem afterPasses_price (cmp : ℚ → ℚ → ℚ) (inv : Invoice) (df : List Invoice)
    (hash : String) (st : ScanSt)
    (hg : detect_ghost_invoice inv df = [])
    (hpa : detect_line_item_price_anomalies cmp inv
      (prepare_historical_items_db df) 0.05 0.20 ≠ []) :
    afterPasses cmp inv df hash st =
      { invoice_hash := hash
        exact_duplicate := false
        exact_duplicate_match := none
        near_duplicates := st.nearDups
        ghost_signals := []
        line_item_price_anomalies := detect_line_item_price_anomalies cmp inv
          (prepare_historical_items_db df) 0.05 0.20
        overall_flag :=
          if st.flag = "CLEAN" then "PRICE_ANOMALY" else st.flag
        reasons := st.reasons ++ detect_line_item_price_anomalies cmp inv
          (prepare_historical_items_db df) 0.05 0.20 } := by
  rw [afterPasses, if_neg (by simp [hg]),
    if_pos (by simpa [List.isEmpty_iff] using hpa)]

theorem afterPasses_final (cmp : ℚ → ℚ → ℚ) (inv : Invoice) (df : List Invoice)
    (hash : String) (st : ScanSt)
    (hg : detect_ghost_invoice inv df = [])
    (hpa : detect_line_item_price_anomalies cmp inv
      (prepare_historical_items_db df) 0.05 0.20 = []) :
    afterPasses cmp inv df hash st = finalizeResult hash st := by
  rw [afterPasses, if_neg (by simp [hg]), if_neg (by simp [hpa])]

theorem itemPriceCheck_skip (cmp : ℚ → ℚ → ℚ) (db : List FlatItem)
    (gstin : String) (nd : DateT) (r m : ℚ) (it : LineItem)
    (hprior : priorPurchases db gstin nd it = []) :
    itemPriceCheck cmp db gstin nd r m it = none := by
  rw [itemPriceCheck, hprior]

theorem itemPriceCheck_over (cmp : ℚ → ℚ → ℚ) (db : List FlatItem)
    (gstin : String) (nd : DateT) (r m : ℚ) (it : LineItem)
    {last : FlatItem} {rest : List FlatItem}
    (hprior : priorPurchases db gstin nd it = last :: rest)
    (hpos : ¬ last.unitPrice ≤ 0)
    (hdays : dateOrdinal nd - dateOrdinal last.invoiceDate ≤ 30)
    (hover : it.unitPrice > last.unitPrice * (1 + m)) :
    itemPriceCheck cmp db gstin nd r m it =
      some (anomalyReason it.description it.hsnSac it.unitPrice
        (last.unitPrice * (1 + m)) last.unitPrice last.invoiceDate) := by
  rw [itemPriceCheck, hprior]
  simp only [if_neg hpos, if_pos hdays, if_pos hover]

theorem detect_price_skip_all (cmp : ℚ → ℚ → ℚ) (inv : Invoice)
    (db : List FlatItem) (r m : ℚ) {nd : DateT}
    (hp : parse_date inv.date = some nd)
    (h : ∀ it ∈ inv.lineItems,
      priorPurchases db (normalize_text inv.gstNumber) nd it = []) :
    detect_line_item_price_anomalies cmp inv db r m = [] := by
  rw [detect_line_item_price_anomalies]
  split
  · rfl
  · rw [hp]
    simp only [List.filterMap_eq_nil_iff]
    intro it hit
    exact itemPriceCheck_skip cmp db _ nd r m it (h it hit)

theorem detect_price_mem (cmp : ℚ → ℚ → ℚ) (inv : Invoice)
    (db : List FlatItem) (r m : ℚ) {nd : DateT} {it : LineItem} {s : String}
    (hdb : db ≠ []) (hp : parse_date inv.date = some nd)
    (hit : it ∈ inv.lineItems)
    (hcheck : itemPriceCheck cmp db (normalize_text inv.gstNumber) nd r m it = some s) :
    s ∈ detect_line_item_price_anomalies cmp inv db r m := by
  rw [detect_line_item_price_anomalies, if_neg (by simpa [List.isEmpty_iff] using hdb), hp]
  exact List.mem_filterMap.mpr ⟨it, hit, hcheck⟩

theorem commonLead_self : ∀ l : List Char, commonLead l l = l.length
  | [] => rfl
  | a :: as => by simp [commonLead, commonLead_self as]

theorem commonLead_le_left : ∀ a b : List Char, commonLead a b ≤ a.length := by
  intro a
  induction a with
  | nil => intro b; cases b <;> simp [commonLead]
  | cons x xs ih =>
    intro b
    cases b with
    | nil => simp [commonLead]
    | cons y ys =>
      simp only [commonLead, List.length_cons]
      split
      · have := ih ys; omega
      · omega

theorem commonLead_le_right : ∀ a b : List Char, commonLead a b ≤ b.length := by
  intro a
  induction a with
  | nil => intro b; cases b <;> simp [commonLead]
  | cons x xs ih =>
    intro b
    cases b with
    | nil => simp [commonLead]
    | cons y ys =>
      simp only [commonLead, List.length_cons]
      split
      · have := ih ys; omega
      · omega

theorem matchCands_elem_le (l : List Char) :
    ∀ c ∈ matchCands l l, c.2.2 ≤ l.length := by
  intro c hc
  simp only [matchCands, List.mem_flatMap, List.mem_map, List.mem_range] at hc
  obtain ⟨i, hi, j, hj, rfl⟩ := hc
  have := commonLead_le_left (l.drop i) (l.drop j)
  simp only [extLen]
  have hlen : (l.drop i).length ≤ l.length := by
    rw [List.length_drop]; omega
  omega

theorem matchCands_elem_max (l : List Char) :
    ∀ c ∈ matchCands l l, c.2.2 = l.length → c = (0, 0, l.length) := by
  intro c hc hk
  simp only [matchCands, List.mem_flatMap, List.mem_map, List.mem_range] at hc
  obtain ⟨i, hi, j, hj, rfl⟩ := hc
  simp only [extLen] at hk ⊢
  have h1 := commonLead_le_left (l.drop i) (l.drop j)
  have h2 := commonLead_le_right (l.drop i) (l.drop j)
  rw [List.length_drop] at h1 h2
  have hi0 : i = 0 := by omega
  have hj0 : j = 0 := by omega
  subst hi0; subst hj0
  simpa using hk

theorem matchCands_self_mem (x : Char) (xs : List Char) :
    ((0 : ℕ), (0 : ℕ), xs.length + 1) ∈ matchCands (x :: xs) (x :: xs) := by
  simp only [matchCands, List.mem_flatMap, List.mem_map, List.mem_range]
  refine ⟨0, by simp, 0, by simp, ?_⟩
  simp [extLen, commonLead_self]

theorem foldl_pickLonger_cases :
    ∀ (l : List (ℕ × ℕ × ℕ)) (acc : ℕ × ℕ × ℕ),
      l.foldl pickLonger acc = acc ∨ l.foldl pickLonger acc ∈ l := by
  intro l
  induction l with
  | nil => intro acc; exact Or.inl rfl
  | cons c rest ih =>
    intro acc
    rw [List.foldl_cons]
    rcases ih (pickLonger acc c) with h | h
    · rw [h, pickLonger]
      split
      · exact Or.inr (List.mem_cons_self _ _)
      · exact Or.inl rfl
    · exact Or.inr (List.mem_cons_of_mem _ h)

theorem foldl_pickLonger_ge_acc :
    ∀ (l : List (ℕ × ℕ × ℕ)) (acc : ℕ × ℕ × ℕ),
      acc.2.2 ≤ (l.foldl pickLonger acc).2.2 := by
  intro l
  induction l with
  | nil => intro acc; exact le_refl _
  | cons c rest ih =>
    intro acc
    rw [List.foldl_cons]
    refine le_trans ?_ (ih (pickLonger acc c))
    rw [pickLonger]
    split <;> omega

theorem foldl_pickLonger_ge_mem :
    ∀ (l : List (ℕ × ℕ × ℕ)) (acc : ℕ × ℕ × ℕ) (c : ℕ × ℕ × ℕ), c ∈ l →
      c.2.2 ≤ (l.foldl pickLonger acc).2.2 := by
  intro l
  induction l with
  | nil => intro acc c hc; cases hc
  | cons d rest ih =>
    intro acc c hc
    rw [List.foldl_cons]
    rcases List.mem_cons.mp hc with rfl | hc'
    · refine le_trans ?_ (foldl_pickLonger_ge_acc rest (pickLonger acc c))
      rw [pickLonger]
      split <;> omega
    · exact ih (pickLonger acc d) c hc'

theorem longestMatch_self (x : Char) (xs : List Char) :
    longestMatch (x :: xs) (x :: xs) = (0, 0, xs.length + 1) := by
  have hge : xs.length + 1 ≤ (longestMatch (x :: xs) (x :: xs)).2.2 := by
    have := foldl_pickLonger_ge_mem (matchCands (x :: xs) (x :: xs)) (0, 0, 0)
      _ (matchCands_self_mem x xs)
    simpa [longestMatch] using this
  rcases foldl_pickLonger_cases (matchCands (x :: xs) (x :: xs)) (0, 0, 0) with h | h
  · rw [longestMatch] at hge ⊢
    rw [h] at hge
    simp at hge
  · rw [longestMatch] at hge ⊢
    have hle := matchCands_elem_le (x :: xs) _ h
    simp only [List.length_cons] at hle
    exact matchCands_elem_max (x :: xs) _ h (by simp only [List.length_cons]; omega)

theorem matchSumF_nil_nil (fuel : ℕ) : matchSumF fuel [] [] = 0 := by
  cases fuel <;> rfl

theorem matchSum_self (l : List Char) : matchSum l l = l.length := by
  cases l with
  | nil => rfl
  | cons x xs =>
    show matchSumF ((x :: xs).length + (x :: xs).length) (x :: xs) (x :: xs) =
      (x :: xs).length
    rw [show (x :: xs).length + (x :: xs).length =
      ((x :: xs).length + xs.length) + 1 from rfl]
    simp only [matchSumF, longestMatch_self]
    rw [if_neg (Nat.succ_ne_zero _)]
    simp only [List.take_zero, Nat.zero_add]
    rw [show (x :: xs).drop (xs.length + 1) = [] from
      List.drop_of_length_le (by simp)]
    simp [matchSumF_nil_nil]

theorem text_similarity_self (a : String) (h : normalize_text a ≠ "") :
    text_similarity a a = 100 := by
  rw [text_similarity, ratioQ]
  have hne : (normalize_text a).toList ≠ [] := by
    intro hnil
    apply h
    have : normalize_text a = String.mk (normalize_text a).toList := by
      cases normalize_text a; rfl
    rw [this, hnil]
  have hn : 0 < (normalize_text a).toList.length := List.length_pos.mpr hne
  rw [if_neg (by omega), matchSum_self]
  have hq : ((normalize_text a).toList.length : ℚ) ≠ 0 := by
    exact_mod_cast Nat.pos_iff_ne_zero.mp hn
  rw [show ((normalize_text a).toList.length : ℚ) +
      ((normalize_text a).toList.length : ℚ) =
      2 * ((normalize_text a).toList.length : ℚ) from by ring]
  rw [div_self (mul_ne_zero two_ne_zero hq)]
  norm_num

attribute [local semireducible] Rat.mul Rat.add Rat.sub Rat.inv Rat.ofScientific

set_option maxRecDepth 4000

/-- C1: a ledger containing a record with the candidate's fingerprint
makes screening return immediately with EXACT_DUPLICATE, the duplicate
flag set, the matched index recorded, and no near-duplicate, ghost or
price-anomaly results. -/
theorem C1_exact_duplicate_short_circuit (o : LineSimFn) (cmp : ℚ → ℚ → ℚ)
    (inv : Invoice) (df : List Invoice) (res : ScreenResult)
    (hex : ∃ r ∈ df, compute_hash r = compute_hash inv)
    (hres : res = run_historical_checks o cmp inv (.rows df)) :
    res.overall_flag = "EXACT_DUPLICATE" ∧
    res.exact_duplicate = true ∧
    res.near_duplicates = [] ∧
    res.ghost_signals = [] ∧
    res.line_item_price_anomalies = [] ∧
    ∃ k e, res.exact_duplicate_match = some k ∧ df[k]? = some e ∧
      compute_hash e = compute_hash inv := by
  obtain ⟨k, e, h1, h2, h3⟩ := findHashAux_spec (compute_hash inv) 0 hex
  rw [Nat.zero_add] at h1
  subst hres
  rw [run_rows_eq, screenRows_exact o cmp inv h1]
  exact ⟨rfl, rfl, rfl, rfl, rfl, k, e, rfl, h2, h3⟩

theorem C1_witness :
    (∃ r ∈ exactLedger, compute_hash r = compute_hash exactCand) ∧
    (run_historical_checks zeroSim compoundOne exactCand
      (.rows exactLedger)).overall_flag = "EXACT_DUPLICATE" ∧
    (run_historical_checks zeroSim compoundOne exactCand
      (.rows exactLedger)).exact_duplicate = true := by
  have hex : ∃ r ∈ exactLedger, compute_hash r = compute_hash exactCand := by
    decide
  have h := C1_exact_duplicate_short_circuit zeroSim compoundOne exactCand
    exactLedger _ hex rfl
  exact ⟨hex, h.1, h.2.1⟩

/-- C2: in the invoice-number priority pass, the first ledger record with
number similarity ≥ 95, totals within 0.05 and a corroborating signal is
emitted as the only near-duplicate, the flag is HIGH_RISK_NEAR_DUPLICATE,
and screening returns immediately (no ghost or price results); and when a
record passes the similarity and total tests without any corroborating
signal it is suppressed — the pass finds nothing and scanning continues. -/
theorem C2_invoice_number_pass :
    (∀ (o : LineSimFn) (cmp : ℚ → ℚ → ℚ) (inv : Invoice) (df : List Invoice)
      (k : ℕ) (e : Invoice) (res : ScreenResult),
      (∀ r ∈ df, compute_hash r ≠ compute_hash inv) →
      df[k]? = some e →
      pass2fire o inv e = true →
      (∀ j < k, ∀ r, df[j]? = some r → pass2fire o inv r = false) →
      res = run_historical_checks o cmp inv (.rows df) →
      res.overall_flag = "HIGH_RISK_NEAR_DUPLICATE" ∧
      res.near_duplicates = [pass2entry o inv k e] ∧
      res.ghost_signals = [] ∧
      res.line_item_price_anomalies = [] ∧
      res.exact_duplicate = false ∧
      res.reasons = ["Invoice number extremely similar + totals match -> high risk"]) ∧
    (∀ (o : LineSimFn) (inv : Invoice) (df : List Invoice),
      (∀ e ∈ df, pass2fire o inv e = false) →
      findFireAux o inv 0 df = none) := by
  constructor
  · intro o cmp inv df k e res hnh hk hf hfirst hres
    subst hres
    have h2 := findFireAux_first o inv hk hf hfirst 0
    rw [Nat.zero_add] at h2
    rw [run_rows_eq, screenRows_pass2 o cmp inv (findHashAux_none _ hnh 0) h2]
    exact ⟨rfl, rfl, rfl, rfl, rfl, rfl⟩
  · intro o inv df hn
    exact findFireAux_none o inv hn 0

theorem C2_witness :
    (∀ r ∈ invnoLedger, compute_hash r ≠ compute_hash invnoCand) ∧
    (∀ e ∈ invnoLedger, pass2fire zeroSim invnoCand e = true) ∧
    (run_historical_checks zeroSim compoundOne invnoCand
      (.rows invnoLedger)).overall_flag = "HIGH_RISK_NEAR_DUPLICATE" ∧
    (run_historical_checks zeroSim compoundOne invnoCand
      (.rows invnoLedger)).near_duplicates =
      [pass2entry zeroSim invnoCand 0 (mkInv "INV1002" "2024-01-02" "acme" "G1" 100 [])] := by
  have h := (C2_invoice_number_pass.1 zeroSim compoundOne invnoCand invnoLedger 0
    (mkInv "INV1002" "2024-01-02" "acme" "G1" 100 []) _)
    (by decide) (by decide) (by decide)
    (fun j hj => absurd hj (Nat.not_lt_zero j)) rfl
  exact ⟨by decide, by decide, h.1, h.2.1⟩

theorem insertLe_perm {α : Type} (le : α → α → Bool) (x : α) (l : List α) :
    (insertLe le x l).Perm (x :: l) := by
  induction l with
  | nil => exact List.Perm.refl _
  | cons y ys ih =>
    rw [insertLe]
    split
    · exact List.Perm.refl _
    · exact (List.Perm.cons y ih).trans (List.Perm.swap x y ys)

theorem insSort_perm {α : Type} (le : α → α → Bool) (l : List α) :
    (insSort le l).Perm l := by
  induction l with
  | nil => exact List.Perm.refl _
  | cons x xs ih =>
    exact (insertLe_perm le x (insSort le xs)).trans (List.Perm.cons x ih)

theorem insertLe_pairwise {α : Type} (le : α → α → Bool)
    (htot : ∀ a b, (le a b || le b a) = true)
    (htrans : ∀ a b c, le a b = true → le b c = true → le a c = true)
    (x : α) (l : List α) (hl : List.Pairwise (fun a b => le a b = true) l) :
    List.Pairwise (fun a b => le a b = true) (insertLe le x l) := by
  induction l with
  | nil => simp [insertLe]
  | cons y ys ih =>
    rw [insertLe]
    rcases List.pairwise_cons.mp hl with ⟨hy, hys⟩
    split
    · rename_i hxy
      refine List.pairwise_cons.mpr ⟨?_, hl⟩
      intro z hz
      rcases List.mem_cons.mp hz with rfl | hz'
      · exact hxy
      · exact htrans x y z hxy (hy z hz')
    · rename_i hxy
      have hyx : le y x = true := by
        have := htot x y
        rcases Bool.or_eq_true_iff.mp this with h | h
        · exact absurd h hxy
        · exact h
      refine List.pairwise_cons.mpr ⟨?_, ih hys⟩
      intro z hz
      have hperm := insertLe_perm le x ys
      have hz' := hperm.mem_iff.mp hz
      rcases List.mem_cons.mp hz' with rfl | hz''
      · exact hyx
      · exact hy z hz''

theorem insSort_pairwise {α : Type} (le : α → α → Bool)
    (htot : ∀ a b, (le a b || le b a) = true)
    (htrans : ∀ a b c, le a b = true → le b c = true → le a c = true)
    (l : List α) :
    List.Pairwise (fun a b => le a b = true) (insSort le l) := by
  induction l with
  | nil => simp [insSort]
  | cons x xs ih => exact insertLe_pairwise le htot htrans x _ ih


/-- C3 counterexample: a record for which the tax-ID pass emits a
near-duplicate without escalating (`emit` true, `esc` false) leaves the
overall flag untouched — the whole screening here ends in
LOW_RISK_RECHECK, not "at least MEDIUM_RISK_POSSIBLE_DUPLICATE" as the
claim states. -/
theorem C3_counterexample :
    pass4emitCond identSim taxCand
      (mkInv "z999" "2024-01-01" "acme" "G1" 100 [⟨"widget gear", "8471", 100⟩]) = true ∧
    pass4escCond identSim taxCand
      (mkInv "z999" "2024-01-01" "acme" "G1" 100 [⟨"widget gear", "8471", 100⟩]) = false ∧
    (run_historical_checks identSim compoundOne taxCand
      (.rows taxLedger)).near_duplicates.length = 1 ∧
    (run_historical_checks identSim compoundOne taxCand
      (.rows taxLedger)).overall_flag = "LOW_RISK_RECHECK" ∧
    "LOW_RISK_RECHECK" ≠ "MEDIUM_RISK_POSSIBLE_DUPLICATE" ∧
    "LOW_RISK_RECHECK" ≠ "HIGH_RISK_NEAR_DUPLICATE" := by
  refine ⟨by decide, by decide, by decide, by decide, by decide, by decide⟩

/-- C3 (amended): in the tax-ID pass, a record with matching tax IDs, a
supporting signal and no suppression is emitted; if it also satisfies the
escalation test (number similarity ≥ 90 or totals within 0.02) the run
returns immediately with HIGH_RISK_NEAR_DUPLICATE; otherwise the
near-duplicate is recorded but the overall flag and reasons are left
unchanged and scanning continues (no escalation to MEDIUM happens in this
pass). -/
theorem C3_tax_pass_amended :
    (∀ (o : LineSimFn) (cmp : ℚ → ℚ → ℚ) (inv : Invoice) (l₁ l₂ : List Invoice)
      (e : Invoice) (res : ScreenResult),
      (∀ r ∈ l₁ ++ e :: l₂, compute_hash r ≠ compute_hash inv) →
      findFireAux o inv 0 (l₁ ++ e :: l₂) = none →
      (∀ x ∈ l₁, pass4emitCond o inv x = true → pass4escCond o inv x = false) →
      pass4emitCond o inv e = true →
      pass4escCond o inv e = true →
      res = run_historical_checks o cmp inv (.rows (l₁ ++ e :: l₂)) →
      res.overall_flag = "HIGH_RISK_NEAR_DUPLICATE" ∧
      res.ghost_signals = [] ∧
      res.line_item_price_anomalies = [] ∧
      res.near_duplicates =
        (pass3Aux o inv ⟨[], "CLEAN", []⟩ 0 (l₁ ++ e :: l₂)).nearDups ++
          pass4emits o inv 0 l₁ ++ [pass4entry o inv l₁.length e]) ∧
    (∀ (o : LineSimFn) (inv : Invoice) (hash : String) (df : List Invoice)
      (st : ScanSt),
      (∀ x ∈ df, pass4emitCond o inv x = true → pass4escCond o inv x = false) →
      pass4Aux o inv hash st 0 df =
        Sum.inr ⟨st.nearDups ++ pass4emits o inv 0 df, st.flag, st.reasons⟩) := by
  constructor
  · intro o cmp inv l₁ l₂ e res hnh h2 hpre hemit hesc hres
    subst hres
    have h4 := pass4Aux_esc o inv (compute_hash inv) l₂ hpre hemit hesc
      (pass3Aux o inv ⟨[], "CLEAN", []⟩ 0 (l₁ ++ e :: l₂)) 0
    rw [Nat.zero_add] at h4
    rw [run_rows_eq, screenRows_inl o cmp inv (findHashAux_none _ hnh 0) h2 h4]
    exact ⟨rfl, rfl, rfl, rfl⟩
  · intro o inv hash df st hne
    exact pass4Aux_no_esc o inv hash hne st 0

theorem C3_witness :
    (run_historical_checks zeroSim compoundOne taxEscCand
      (.rows taxEscLedger)).overall_flag = "HIGH_RISK_NEAR_DUPLICATE" ∧
    pass4Aux identSim taxCand "h" ⟨[], "CLEAN", []⟩ 0 taxLedger =
      Sum.inr ⟨pass4emits identSim taxCand 0 taxLedger, "CLEAN", []⟩ := by
  have ha := (C3_tax_pass_amended.1 zeroSim compoundOne taxEscCand [] []
    (mkInv "AB1" "2024-01-01" "acme" "G1" 100 []) _)
    (by decide) (by decide) (fun x hx => absurd hx (List.not_mem_nil x))
    (by decide) (by decide) rfl
  have hb := C3_tax_pass_amended.2 identSim taxCand "h" taxLedger
    ⟨[], "CLEAN", []⟩ (by decide)
  exact ⟨ha.1, by simpa using hb⟩

/-- C4 counterexample: a run whose date pass set
MEDIUM_RISK_POSSIBLE_DUPLICATE keeps that flag even though the top
near-duplicate confidence is 0.9387 ≥ 0.9 — the confidence mapping is not
applied and no escalation to HIGH_RISK_NEAR_DUPLICATE happens. -/
theorem C4_counterexample :
    (run_historical_checks identSim compoundOne medCand
        (.rows medLedger)).near_duplicates.map
      (fun nd => nd.features.final_confidence) = [9387/10000, 9387/10000] ∧
    ((9387 : ℚ)/10000 ≥ 0.9) ∧
    (run_historical_checks identSim compoundOne medCand
      (.rows medLedger)).overall_flag = "MEDIUM_RISK_POSSIBLE_DUPLICATE" ∧
    "MEDIUM_RISK_POSSIBLE_DUPLICATE" ≠ "HIGH_RISK_NEAR_DUPLICATE" := by
  refine ⟨by decide, by decide, by decide, by decide⟩

/-- C4 (amended): when near-duplicates accumulated without an early
return, the verdict builder sorts them descending by (number similarity,
line similarity, negated total difference) — the result is a permutation
of the accumulated entries ordered by that key — and maps the top
confidence through the 0.9 / 0.75 thresholds only when the overall flag
is still CLEAN; a flag already set (e.g. MEDIUM from the date pass) is
left unchanged, with no escalation by confidence. -/
theorem C4_verdict_builder_amended (o : LineSimFn) (cmp : ℚ → ℚ → ℚ)
    (inv : Invoice) (df : List Invoice) (st : ScanSt) (top : NearDup)
    (rest : List NearDup) (res : ScreenResult)
    (h1 : findHashAux (compute_hash inv) 0 df = none)
    (h2 : findFireAux o inv 0 df = none)
    (h4 : pass4Aux o inv (compute_hash inv)
      (pass3Aux o inv ⟨[], "CLEAN", []⟩ 0 df) 0 df = Sum.inr st)
    (h5 : detect_ghost_invoice inv df = [])
    (h6 : detect_line_item_price_anomalies cmp inv
      (prepare_historical_items_db df) 0.05 0.20 = [])
    (hsort : sortNearDups st.nearDups = top :: rest)
    (hres : res = run_historical_checks o cmp inv (.rows df)) :
    res.near_duplicates = top :: rest ∧
    (top :: rest).Perm st.nearDups ∧
    List.Pairwise (fun x y => ndKeyGe x y = true) (top :: rest) ∧
    res.overall_flag =
      (if st.flag = "CLEAN" then confFlag top.features.final_confidence
       else st.flag) ∧
    res.reasons =
      (if st.flag = "CLEAN" then
        st.reasons ++ ["Similarity-based match found; review required"]
       else st.reasons) := by
  subst hres
  have hperm : (top :: rest).Perm st.nearDups := by
    have := insSort_perm ndKeyGe st.nearDups
    rwa [show insSort ndKeyGe st.nearDups = sortNearDups st.nearDups from rfl,
      hsort] at this
  have hpair : List.Pairwise (fun x y => ndKeyGe x y = true) (top :: rest) := by
    have := insSort_pairwise ndKeyGe ndKeyGe_total ndKeyGe_trans st.nearDups
    rwa [show insSort ndKeyGe st.nearDups = sortNearDups st.nearDups from rfl,
      hsort] at this
  rw [run_rows_eq, screenRows_inr o cmp inv h1 h2 h4,
    afterPasses_final cmp inv df _ st h5 h6, finalizeResult, hsort]
  by_cases hc : st.flag = "CLEAN" <;> simp [hc, hperm, hpair]

theorem C4_witness :
    (run_historical_checks identSim compoundOne medCand
      (.rows medLedger)).overall_flag = "MEDIUM_RISK_POSSIBLE_DUPLICATE" ∧
    (pass3entry identSim medCand 0
      (mkInv "INV-002" "2024-01-01" "acme" "G1" 100
        [⟨"widget gear", "8471", 100⟩])).features.final_confidence ≥ 0.9 := by
  have h := C4_verdict_builder_amended identSim compoundOne medCand medLedger
    ⟨[pass3entry identSim medCand 0
        (mkInv "INV-002" "2024-01-01" "acme" "G1" 100
          [⟨"widget gear", "8471", 100⟩]),
      pass4entry identSim medCand 0
        (mkInv "INV-002" "2024-01-01" "acme" "G1" 100
          [⟨"widget gear", "8471", 100⟩])],
     "MEDIUM_RISK_POSSIBLE_DUPLICATE",
     ["Invoice date and totals close -> possible duplicate"]⟩
    (pass3entry identSim medCand 0
      (mkInv "INV-002" "2024-01-01" "acme" "G1" 100
        [⟨"widget gear", "8471", 100⟩]))
    [pass4entry identSim medCand 0
      (mkInv "INV-002" "2024-01-01" "acme" "G1" 100
        [⟨"widget gear", "8471", 100⟩])] _
    (by decide) (by decide) (by decide) (by decide) (by decide) (by decide) rfl
  refine ⟨?_, by decide⟩
  rw [h.2.2.2.1]
  decide

/-- C5: the ghost heuristic flags only on at least two of its three
signals: fewer than two fired signals yield no result (in particular an
unseen GSTIN alone can never fire, since the other two signals need prior
invoices of the same vendor); two or more yield exactly the fired
signals' reasons; and when the ghost step fires during screening, the
verdict carries the reasons, keeps the accumulated near-duplicates,
produces no price anomalies, and sets POTENTIAL_GHOST_INVOICE only when
no higher-priority flag was already set. -/
theorem C5_ghost_two_signal_rule :
    (∀ (inv : Invoice) (df : List Invoice),
      ghostSignalCount inv df < 2 → detect_ghost_invoice inv df = []) ∧
    (∀ (inv : Invoice) (df : List Invoice),
      2 ≤ ghostSignalCount inv df →
      detect_ghost_invoice inv df = ghostReasonsList inv df) ∧
    (∀ (inv : Invoice) (df : List Invoice),
      ghostUnseenGstin inv df = true → detect_ghost_invoice inv df = []) ∧
    (∀ (o : LineSimFn) (cmp : ℚ → ℚ → ℚ) (inv : Invoice) (df : List Invoice)
      (st : ScanSt) (res : ScreenResult),
      findHashAux (compute_hash inv) 0 df = none →
      findFireAux o inv 0 df = none →
      pass4Aux o inv (compute_hash inv)
        (pass3Aux o inv ⟨[], "CLEAN", []⟩ 0 df) 0 df = Sum.inr st →
      detect_ghost_invoice inv df ≠ [] →
      res = run_historical_checks o cmp inv (.rows df) →
      res.ghost_signals = detect_ghost_invoice inv df ∧
      res.overall_flag =
        (if st.flag = "CLEAN" then "POTENTIAL_GHOST_INVOICE" else st.flag) ∧
      res.line_item_price_anomalies = [] ∧
      res.near_duplicates = st.nearDups ∧
      res.reasons = st.reasons ++ detect_ghost_invoice inv df) := by
  refine ⟨fun inv df h => detect_ghost_lt2 h,
    fun inv df h => detect_ghost_ge2 h,
    fun inv df h => ghost_unseen_single h, ?_⟩
  intro o cmp inv df st res h1 h2 h4 hg hres
  subst hres
  rw [run_rows_eq, screenRows_inr o cmp inv h1 h2 h4,
    afterPasses_ghost cmp inv df _ st hg]
  exact ⟨rfl, rfl, rfl, rfl, rfl⟩

theorem C5_witness :
    ghostUnseenGstin ghostCand ghostLedger = true ∧
    detect_ghost_invoice ghostCand ghostLedger = [] ∧
    ghostSignalCount ghostCand ghostLedger = 1 ∧
    (run_historical_checks identSim compoundOne ghostCand
      (.rows ghostLedger)).overall_flag = "CLEAN" := by
  refine ⟨by decide, C5_ghost_two_signal_rule.2.2.1 ghostCand ghostLedger
    (by decide), by decide, by decide⟩

/-- C6 counterexample: for the 200-vs-100-thirty-days-ago item the
emitted reason cites a 66.7% overage — the percentage is measured against
the 120 ceiling, not against the last price, so the claim's "roughly 100%
overage" text is wrong. -/
theorem C6_counterexample :
    detect_line_item_price_anomalies compoundOne priceCand
      (prepare_historical_items_db priceLedger) 0.05 0.20 =
      [anomalyReason "Widget" "8471" 200 120 100 ⟨2024, 1, 1⟩] ∧
    strHasSeg (anomalyReason "Widget" "8471" 200 120 100 ⟨2024, 1, 1⟩)
      "is 66.7% above the acceptable limit of 120.00" = true ∧
    strHasSeg (anomalyReason "Widget" "8471" 200 120 100 ⟨2024, 1, 1⟩)
      "100.0%" = false := by
  refine ⟨by decide, by decide, by decide⟩

/-- C6 (amended): a candidate item whose most recent qualifying prior
purchase was at most 30 days earlier has ceiling `lastPrice × (1 +
margin)`; a price above the ceiling emits the reason string citing the
overage percentage relative to the ceiling (66.7% for 200 against the
~120 ceiling), the last price and the last-purchase date; items with no
qualifying prior purchase emit nothing. -/
theorem C6_price_ceiling_amended :
    (∀ (cmp : ℚ → ℚ → ℚ) (inv : Invoice) (db : List FlatItem) (r m : ℚ)
      (nd : DateT),
      parse_date inv.date = some nd →
      (∀ it ∈ inv.lineItems,
        priorPurchases db (normalize_text inv.gstNumber) nd it = []) →
      detect_line_item_price_anomalies cmp inv db r m = []) ∧
    (∀ (cmp : ℚ → ℚ → ℚ) (inv : Invoice) (db : List FlatItem) (r m : ℚ)
      (nd : DateT) (it : LineItem) (last : FlatItem) (rest : List FlatItem),
      db ≠ [] →
      parse_date inv.date = some nd →
      it ∈ inv.lineItems →
      priorPurchases db (normalize_text inv.gstNumber) nd it = last :: rest →
      ¬ last.unitPrice ≤ 0 →
      dateOrdinal nd - dateOrdinal last.invoiceDate ≤ 30 →
      it.unitPrice > last.unitPrice * (1 + m) →
      anomalyReason it.description it.hsnSac it.unitPrice
        (last.unitPrice * (1 + m)) last.unitPrice last.invoiceDate ∈
        detect_line_item_price_anomalies cmp inv db r m) := by
  constructor
  · intro cmp inv db r m nd hp h
    exact detect_price_skip_all cmp inv db r m hp h
  · intro cmp inv db r m nd it last rest hdb hp hit hprior hpos hdays hover
    exact detect_price_mem cmp inv db r m hdb hp hit
      (itemPriceCheck_over cmp db _ nd r m it hprior hpos hdays hover)

theorem C6_witness :
    anomalyReason "Widget" "8471" 200 120 100 ⟨2024, 1, 1⟩ ∈
      detect_line_item_price_anomalies compoundOne priceCand
        (prepare_historical_items_db priceLedger) 0.05 0.20 := by
  have h := C6_price_ceiling_amended.2 compoundOne priceCand
    (prepare_historical_items_db priceLedger) 0.05 0.20 ⟨2024, 1, 31⟩
    ⟨"Widget", "8471", 200⟩
    ⟨"g1", ⟨2024, 1, 1⟩, "Widget", "widget", "8471", 100⟩ []
    (by decide) (by decide) (by decide) (by decide) (by decide) (by decide)
    (by decide)
  simpa using h

/-- C7 counterexample: the pre-hash input concatenates the four fields
with no separator, so two invoices differing in tax ID and invoice number
(`A`/`B1` versus `AB`/`1`) share the same concatenation — the claimed
equivalence "pre-hash inputs coincide only when all four fields coincide"
is false. -/
theorem C7_counterexample :
    compute_hash hashInvA = compute_hash hashInvB ∧
    hashInvA.gstNumber ≠ hashInvB.gstNumber ∧
    hashInvA.invoiceNumber ≠ hashInvB.invoiceNumber := by
  refine ⟨by decide, by decide, by decide⟩

/-- C7 (amended): the fingerprint is deterministic — invoices agreeing on
tax ID, invoice number, date and total amount always produce the same
hash; but the unseparated concatenation is not injective, so differing
fields can still collide by a boundary shift. -/
theorem C7_fingerprint_deterministic (i1 i2 : Invoice)
    (hg : i1.gstNumber = i2.gstNumber)
    (hn : i1.invoiceNumber = i2.invoiceNumber)
    (hd : i1.date = i2.date)
    (ht : i1.totalAmountFloat = i2.totalAmountFloat) :
    compute_hash i1 = compute_hash i2 := by
  rw [compute_hash, compute_hash, hg, hn, hd, ht]

theorem C7_witness :
    compute_hash exactCand =
      compute_hash (mkInv "I1" "2024-01-01" "someone else" "G1" 100
        [⟨"extra", "99", 5⟩]) :=
  C7_fingerprint_deterministic _ _ rfl rfl rfl rfl

/-- C8 counterexample: `SequenceMatcher.ratio` is not symmetric — on the
normalized pair `pqzab` / `abpqwz` the two directions give 600/11 and
400/11, so `textSimilarity(a,b) = textSimilarity(b,a)` fails. -/
theorem C8_counterexample :
    text_similarity "pqzab" "abpqwz" = 600/11 ∧
    text_similarity "abpqwz" "pqzab" = 400/11 ∧
    text_similarity "pqzab" "abpqwz" ≠ text_similarity "abpqwz" "pqzab" := by
  refine ⟨by decide, by decide, by decide⟩

/-- C8 (amended): `textSimilarity(a, a) = 100` for every string whose
normalized form is non-empty; symmetry, however, does not hold in
general. -/
theorem C8_reflexivity_amended (a : String) (h : normalize_text a ≠ "") :
    text_similarity a a = 100 :=
  text_similarity_self a h

theorem C8_witness :
    normalize_text "Widget-01" ≠ "" ∧
    text_similarity "Widget-01" "Widget-01" = 100 :=
  ⟨by decide, C8_reflexivity_amended "Widget-01" (by decide)⟩

/-- C9 counterexample: for the empty historical file the verdict is CLEAN
with empty lists, but its only reason — "Historical data file is
empty. ..." — does not mention "no historical data", even
case-insensitively. -/
theorem C9_counterexample :
    (run_historical_checks zeroSim compoundOne exactCand
      .emptyFile).overall_flag = "CLEAN" ∧
    (run_historical_checks zeroSim compoundOne exactCand
      .emptyFile).reasons =
      ["Historical data file is empty. New invoice will be added to history."] ∧
    strHasSegCI "Historical data file is empty. New invoice will be added to history."
      "no historical data" = false := by
  refine ⟨by decide, by decide, by decide⟩

/-- C9 (amended): an unavailable ledger yields a CLEAN verdict with empty
result lists and a reason mentioning "no historical data"; an empty
ledger file yields a CLEAN verdict with empty lists and the
file-is-empty reason (which does not contain that phrase); and a ledger
with zero parsed rows yields a CLEAN verdict with empty lists and the
generic no-findings reason.  None of the three raises. -/
theorem C9_no_history_amended :
    (∀ (o : LineSimFn) (cmp : ℚ → ℚ → ℚ) (inv : Invoice),
      (run_historical_checks o cmp inv .missing).overall_flag = "CLEAN" ∧
      (run_historical_checks o cmp inv .missing).exact_duplicate = false ∧
      (run_historical_checks o cmp inv .missing).near_duplicates = [] ∧
      (run_historical_checks o cmp inv .missing).ghost_signals = [] ∧
      (run_historical_checks o cmp inv .missing).line_item_price_anomalies = [] ∧
      ∃ s ∈ (run_historical_checks o cmp inv .missing).reasons,
        strHasSegCI s "no historical data" = true) ∧
    (∀ (o : LineSimFn) (cmp : ℚ → ℚ → ℚ) (inv : Invoice),
      (run_historical_checks o cmp inv .emptyFile).overall_flag = "CLEAN" ∧
      (run_historical_checks o cmp inv .emptyFile).exact_duplicate = false ∧
      (run_historical_checks o cmp inv .emptyFile).near_duplicates = [] ∧
      (run_historical_checks o cmp inv .emptyFile).ghost_signals = [] ∧
      (run_historical_checks o cmp inv .emptyFile).line_item_price_anomalies = [] ∧
      (run_historical_checks o cmp inv .emptyFile).reasons =
        ["Historical data file is empty. New invoice will be added to history."]) ∧
    (∀ (o : LineSimFn) (cmp : ℚ → ℚ → ℚ) (inv : Invoice),
      (run_historical_checks o cmp inv (.rows [])).overall_flag = "CLEAN" ∧
      (run_historical_checks o cmp inv (.rows [])).exact_duplicate = false ∧
      (run_historical_checks o cmp inv (.rows [])).near_duplicates = [] ∧
      (run_historical_checks o cmp inv (.rows [])).ghost_signals = [] ∧
      (run_historical_checks o cmp inv
        (.rows [])).line_item_price_anomalies = [] ∧
      (run_historical_checks o cmp inv (.rows [])).reasons =
        ["No duplicates, anomalies, or ghost signals found."]) := by
  refine ⟨?_, ?_, ?_⟩
  · intro o cmp inv
    exact ⟨rfl, rfl, rfl, rfl, rfl,
      "No historical data to compare against. New invoice will be added to history.",
      by simp [run_historical_checks], by decide⟩
  · intro o cmp inv
    exact ⟨rfl, rfl, rfl, rfl, rfl, rfl⟩
  · intro o cmp inv
    exact ⟨rfl, rfl, rfl, rfl, rfl, rfl⟩

theorem C9_witness :
    (run_historical_checks zeroSim compoundOne ghostCand
      (.rows [])).overall_flag = "CLEAN" ∧
    strHasSegCI
      "No historical data to compare against. New invoice will be added to history."
      "no historical data" = true :=
  ⟨(C9_no_history_amended.2.2 zeroSim compoundOne ghostCand).1, by decide⟩

/-- C10: when no earlier stage returned, the ghost step found nothing and
at least one price anomaly exists, the run returns immediately with the
anomaly reasons, sets the flag to "PRICE_ANOMALY" — a value outside the
specified enumeration — only when no flag was set earlier, and skips the
near-duplicate sorting and confidence classification: the accumulated
entries are returned untouched. -/
theorem C10_price_anomaly_flag (o : LineSimFn) (cmp : ℚ → ℚ → ℚ)
    (inv : Invoice) (df : List Invoice) (st : ScanSt) (res : ScreenResult)
    (h1 : findHashAux (compute_hash inv) 0 df = none)
    (h2 : findFireAux o inv 0 df = none)
    (h4 : pass4Aux o inv (compute_hash inv)
      (pass3Aux o inv ⟨[], "CLEAN", []⟩ 0 df) 0 df = Sum.inr st)
    (h5 : detect_ghost_invoice inv df = [])
    (hpa : detect_line_item_price_anomalies cmp inv
      (prepare_historical_items_db df) 0.05 0.20 ≠ [])
    (hres : res = run_historical_checks o cmp inv (.rows df)) :
    res.line_item_price_anomalies = detect_line_item_price_anomalies cmp inv
      (prepare_historical_items_db df) 0.05 0.20 ∧
    res.overall_flag = (if st.flag = "CLEAN" then "PRICE_ANOMALY" else st.flag) ∧
    res.near_duplicates = st.nearDups ∧
    res.ghost_signals = [] ∧
    res.reasons = st.reasons ++ detect_line_item_price_anomalies cmp inv
      (prepare_historical_items_db df) 0.05 0.20 ∧
    specFlagStrings.contains "PRICE_ANOMALY" = false := by
  subst hres
  rw [run_rows_eq, screenRows_inr o cmp inv h1 h2 h4,
    afterPasses_price cmp inv df _ st h5 hpa]
  exact ⟨rfl, rfl, rfl, rfl, rfl, by decide⟩

theorem C10_witness :
    (run_historical_checks identSim compoundOne anomCand
      (.rows anomLedger)).overall_flag = "PRICE_ANOMALY" ∧
    (run_historical_checks identSim compoundOne anomCand
      (.rows anomLedger)).near_duplicates =
      [pass4entry identSim anomCand 0
        (mkInv "z999" "2024-01-01" "acme" "G1" 100
          [⟨"widget gear", "8471", 100⟩])] := by
  have h := C10_price_anomaly_flag identSim compoundOne anomCand anomLedger
    ⟨[pass4entry identSim anomCand 0
        (mkInv "z999" "2024-01-01" "acme" "G1" 100
          [⟨"widget gear", "8471", 100⟩])], "CLEAN", []⟩ _
    (by decide) (by decide) (by decide) (by decide) (by decide) rfl
  refine ⟨?_, h.2.2.1⟩
  rw [h.2.1]
  decide
